import Mathlib

/-!
# Role switching on the HiKey USB hub / Type-C board

A shallow embedding of `drivers/misc/hisi_hikey_usb.c`.

The driver data (`struct hisi_hikey_usb`) and the kernel facilities the driver
talks to (GPIO lines, the extcon cable sink, the role-switch handle) are kept in
one explicit state `Sys`, which every embedded function takes and returns.
Two ghost logs record what happened: `calls` lists the actuator invocations and
cable announcements made by `extcon_hisi_pd_set_role`, `io` lists the GPIO
operations that reached the line driver.
-/

namespace Hikey

/-! ## Constants of the source file -/

/-- The macro `HUB_VBUS_POWER_ON` (1). -/
def HUB_VBUS_POWER_ON : Int := 1

/-- The macro `HUB_VBUS_POWER_OFF` (0). -/
def HUB_VBUS_POWER_OFF : Int := 0

/-- The macro `USB_SWITCH_TO_HUB` (1). -/
def USB_SWITCH_TO_HUB : Int := 1

/-- The macro `USB_SWITCH_TO_TYPEC` (0). -/
def USB_SWITCH_TO_TYPEC : Int := 0

/-- The macro `INVALID_GPIO_VALUE` (-1). -/
def INVALID_GPIO_VALUE : Int := -1

/-- Errno values returned as negative results. -/
def ENOMEM : Int := 12

/-- Errno of a line that is already claimed. -/
def EBUSY : Int := 16

/-! ## Data model -/

/-- The type `enum usb_role` of `linux/usb/role.h`. -/
inductive usb_role where
  | USB_ROLE_NONE
  | USB_ROLE_HOST
  | USB_ROLE_DEVICE
  deriving DecidableEq, Repr

/-- The cable kinds of `usb_extcon_cable[]` (without the terminating `EXTCON_NONE`). -/
inductive Cable where
  | EXTCON_USB
  | EXTCON_USB_HOST
  deriving DecidableEq, Repr

/-- A kernel pointer as far as the driver looks at it: null, an `ERR_PTR`, or an object. -/
inductive Ptr where
  | NULL
  | ERR (errno : Int)
  | VALID
  deriving DecidableEq, Repr

/-- The test `IS_ERR(p)`. -/
def IS_ERR : Ptr → Bool
  | Ptr.ERR _ => true
  | _ => false

/-- The driver data `struct hisi_hikey_usb`. -/
structure hisi_hikey_usb where
  otg_switch_gpio : Int
  typec_vbus_gpio : Int
  typec_vbus_enable_val : Int
  hub_vbus_gpio : Int
  edev : Ptr
  role_sw : Ptr
  deriving DecidableEq, Repr

/-- What `devm_kzalloc` hands out: every field zero. -/
def hisi_hikey_usb.zeroed : hisi_hikey_usb :=
  { otg_switch_gpio := 0, typec_vbus_gpio := 0, typec_vbus_enable_val := 0,
    hub_vbus_gpio := 0, edev := Ptr.NULL, role_sw := Ptr.NULL }

/-- An operation that reached the GPIO line driver. -/
inductive GpioOp where
  | gpio_request (line : Int)
  | gpio_free (line : Int)
  | gpio_get_value (line : Int)
  | gpio_set_value (line : Int) (value : Int)
  | gpio_direction_output (line : Int) (value : Int)
  deriving DecidableEq, Repr

/-- A hardware write: an operation that drives a level onto a line. -/
def GpioOp.is_write : GpioOp → Bool
  | GpioOp.gpio_set_value _ _ => true
  | GpioOp.gpio_direction_output _ _ => true
  | _ => false

/-- The line an operation addresses. -/
def GpioOp.line : GpioOp → Int
  | GpioOp.gpio_request l => l
  | GpioOp.gpio_free l => l
  | GpioOp.gpio_get_value l => l
  | GpioOp.gpio_set_value l _ => l
  | GpioOp.gpio_direction_output l _ => l

/-- An actuator invocation or a cable announcement made by the role state machine. -/
inductive Call where
  | hub_power_ctrl (value : Int)
  | usb_switch_ctrl (switch_to : Int)
  | usb_typec_power_ctrl (value : Int)
  | extcon_set_state_sync (id : Cable) (state : Bool)
  deriving DecidableEq, Repr

/-- The device-tree node of the platform device (`dev->of_node`), as the probe reads it. -/
structure device_node where
  /-- result of `of_get_named_gpio(root, "hub_vdd33_en_gpio", 0)` -/
  hub_vdd33_en_gpio : Int
  /-- result of `of_get_named_gpio(root, "typc_vbus_int_gpio,typec-gpios", 0)` -/
  typec_gpios : Int
  /-- return code of `of_property_read_u32(root, "typc_vbus_enable_val", ..)` -/
  typc_vbus_enable_val_ret : Int
  /-- the 32-bit value of the property `typc_vbus_enable_val` -/
  typc_vbus_enable_val : Nat
  /-- result of `of_device_is_compatible(root, "hisilicon,hikey960_usb")` -/
  hikey960_usb : Bool
  /-- result of `of_get_named_gpio(root, "otg_gpio", 0)` -/
  otg_gpio : Int

/-- The driver data together with the kernel facilities around it. -/
structure Sys where
  /-- the object `dev_get_drvdata` / `platform_get_drvdata` yield -/
  drv : hisi_hikey_usb
  /-- number of GPIO lines of the platform (`ARCH_NR_GPIOS`) -/
  ARCH_NR_GPIOS : Int
  /-- logical level of every GPIO line -/
  level : Int → Int
  /-- lines currently claimed (`gpio_request` without `gpio_free`) -/
  requested : List Int
  /-- error code the line driver gives to a claim of a line (0: none) -/
  request_err : Int → Int
  /-- error code the line driver gives to configuring a line as output (0: none) -/
  output_err : Int → Int
  /-- cable states held by the extcon device -/
  cable : Cable → Bool
  /-- role cached by the role-switch handle -/
  sw_role : usb_role
  /-- whether a role-switch handle is registered -/
  sw_registered : Bool
  /-- whether `devm_kzalloc` succeeds -/
  kzalloc_ok : Bool
  /-- result of `devm_extcon_dev_allocate` -/
  extcon_allocate : Ptr
  /-- result of `devm_extcon_dev_register` -/
  extcon_register_ret : Int
  /-- result of `usb_role_switch_register` -/
  role_switch_register : Ptr
  /-- ghost log of GPIO operations, oldest first -/
  io : List GpioOp
  /-- ghost log of actuator invocations and cable announcements, oldest first -/
  calls : List Call

/-! ## The kernel facilities the driver uses

None of these is in the source file; each follows the interface the
specification gives for it. -/

/-- Modelled from the spec: `gpio_is_valid` of the GPIO library is not in the source
file. A line number is a real line when it lies in `[0, ARCH_NR_GPIOS)`; the
sentinel `INVALID_GPIO_VALUE` and negative lookup results are "absent". -/
def gpio_is_valid (s : Sys) (line : Int) : Bool :=
  decide (0 ≤ line) && decide (line < s.ARCH_NR_GPIOS)

/-- Modelled from the spec: `gpio_get_value`, "read logical level": yields the level
the line has, which is the level last written to it. -/
def gpio_get_value (s : Sys) (line : Int) : Int × Sys :=
  (s.level line, { s with io := s.io ++ [GpioOp.gpio_get_value line] })

/-- Modelled from the spec: `gpio_set_value`, "set logical level". -/
def gpio_set_value (s : Sys) (line : Int) (value : Int) : Sys :=
  { s with level := Function.update s.level line value,
           io := s.io ++ [GpioOp.gpio_set_value line value] }

/-- Modelled from the spec: `gpio_direction_output`, "configures the line as an output
driven to `initial_value`; fails if the underlying line cannot be configured".
A failed call leaves the level of the line as it was. -/
def gpio_direction_output (s : Sys) (line : Int) (value : Int) : Int × Sys :=
  let s1 : Sys := { s with io := s.io ++ [GpioOp.gpio_direction_output line value] }
  if s.output_err line ≠ 0 then (s.output_err line, s1)
  else (0, { s1 with level := Function.update s.level line value })

/-- Modelled from the spec: `gpio_request`, "exclusive claim; fails if the identifier
does not resolve to a real line or is already claimed by this or another owner". -/
def gpio_request (s : Sys) (line : Int) : Int × Sys :=
  let s1 : Sys := { s with io := s.io ++ [GpioOp.gpio_request line] }
  if line ∈ s.requested then (-EBUSY, s1)
  else if s.request_err line ≠ 0 then (s.request_err line, s1)
  else (0, { s1 with requested := line :: s.requested })

/-- Modelled from the spec: `gpio_free`, "release": the line is no longer claimed. -/
def gpio_free (s : Sys) (line : Int) : Sys :=
  { s with requested := s.requested.erase line,
           io := s.io ++ [GpioOp.gpio_free line] }

/-- Modelled from the spec: `extcon_set_state_sync`, "set boolean state for cable kind K,
observed synchronously by listeners". -/
def extcon_set_state_sync (s : Sys) (id : Cable) (state : Bool) : Sys :=
  { s with cable := Function.update s.cable id state,
           calls := s.calls ++ [Call.extcon_set_state_sync id state] }

/-- Modelled from the spec: `extcon_set_state`, the same without notifying listeners. -/
def extcon_set_state (s : Sys) (id : Cable) (state : Bool) : Sys :=
  { s with cable := Function.update s.cable id state }

/-- The operator `!x` of C on an `int`. -/
def lnot (x : Int) : Int := if x = 0 then 1 else 0

/-! ## The actuators (source lines 53-99) -/

/-- The actuator `hub_power_ctrl`: the hub-power line is written whenever it is present. -/
def hub_power_ctrl (s : Sys) (value : Int) : Sys :=
  let s : Sys := { s with calls := s.calls ++ [Call.hub_power_ctrl value] }
  let line := s.drv.hub_vbus_gpio
  if gpio_is_valid s line then gpio_set_value s line value else s

/-- The actuator `usb_switch_ctrl`: the switch line is read and written only if it differs. -/
def usb_switch_ctrl (s : Sys) (switch_to : Int) : Sys :=
  let s : Sys := { s with calls := s.calls ++ [Call.usb_switch_ctrl switch_to] }
  let line := s.drv.otg_switch_gpio
  if !gpio_is_valid s line then s
  else
    let r := gpio_get_value s line
    if r.1 = switch_to then r.2
    else (gpio_direction_output r.2 line switch_to).2

/-- The actuator `usb_typec_power_ctrl`: the Type-C VBUS line is read and written only if it
differs. -/
def usb_typec_power_ctrl (s : Sys) (value : Int) : Sys :=
  let s : Sys := { s with calls := s.calls ++ [Call.usb_typec_power_ctrl value] }
  let line := s.drv.typec_vbus_gpio
  if !gpio_is_valid s line then s
  else
    let r := gpio_get_value s line
    if r.1 = value then r.2
    else (gpio_direction_output r.2 line value).2

/-! ## The role state machine (source lines 101-143) -/

/-- The callback `extcon_hisi_pd_set_role`: the result code and the state afterwards. -/
def extcon_hisi_pd_set_role (s : Sys) (role : usb_role) : Int × Sys :=
  match role with
  | usb_role.USB_ROLE_NONE =>
    let s := usb_switch_ctrl s USB_SWITCH_TO_HUB
    let s := usb_typec_power_ctrl s (lnot s.drv.typec_vbus_enable_val)
    let s := hub_power_ctrl s HUB_VBUS_POWER_ON
    let s := extcon_set_state_sync s Cable.EXTCON_USB false
    let s := extcon_set_state_sync s Cable.EXTCON_USB_HOST true
    (0, s)
  | usb_role.USB_ROLE_HOST =>
    let s := usb_switch_ctrl s USB_SWITCH_TO_TYPEC
    let s := usb_typec_power_ctrl s s.drv.typec_vbus_enable_val
    let s := extcon_set_state_sync s Cable.EXTCON_USB false
    let s := extcon_set_state_sync s Cable.EXTCON_USB_HOST true
    (0, s)
  | usb_role.USB_ROLE_DEVICE =>
    let s := hub_power_ctrl s HUB_VBUS_POWER_OFF
    let s := usb_typec_power_ctrl s s.drv.typec_vbus_enable_val
    let s := usb_switch_ctrl s USB_SWITCH_TO_TYPEC
    let s := extcon_set_state_sync s Cable.EXTCON_USB_HOST false
    let s := extcon_set_state_sync s Cable.EXTCON_USB true
    (0, s)

/-- Modelled from the spec: `usb_role_switch_get_role` of the role-switch class is not in
the source file; it yields "the registration handle's cached value" and touches no line. -/
def usb_role_switch_get_role (s : Sys) : usb_role × Sys :=
  (s.sw_role, s)

/-- Modelled from the spec: `usb_role_switch_set_role` of the role-switch class is not in
the source file. It is the entry point of a role-switch client: it runs the registered
`set` callback and, when that reports success, caches the role in the handle ("role query
always returns the role implied by the last successfully completed transition"). -/
def usb_role_switch_set_role (s : Sys) (role : usb_role) : Int × Sys :=
  let r := extcon_hisi_pd_set_role s role
  if r.1 = 0 then (r.1, { r.2 with sw_role := role }) else r

/-- The callback `extcon_hisi_pd_get_role`. -/
def extcon_hisi_pd_get_role (s : Sys) : usb_role × Sys :=
  usb_role_switch_get_role s

/-! ## Attach (source lines 151-273) -/

/-- The `int` a 32-bit unsigned value becomes when stored through an `int *`. -/
def u32_as_int (v : Nat) : Int :=
  if v % 2 ^ 32 < 2 ^ 31 then ((v % 2 ^ 32 : Nat) : Int) else ((v % 2 ^ 32 : Nat) : Int) - 2 ^ 32

/-- The unwind label `free_gpio1` with the `return ret` after it. -/
def free_gpio1 (s : Sys) (ret : Int) : Int × Sys :=
  if gpio_is_valid s s.drv.hub_vbus_gpio then
    let s := gpio_free s s.drv.hub_vbus_gpio
    (ret, { s with drv := { s.drv with hub_vbus_gpio := INVALID_GPIO_VALUE } })
  else (ret, s)

/-- The unwind label `free_gpio2`, which falls through to `free_gpio1`. -/
def free_gpio2 (s : Sys) (ret : Int) : Int × Sys :=
  if gpio_is_valid s s.drv.typec_vbus_gpio then
    let s := gpio_free s s.drv.typec_vbus_gpio
    free_gpio1 { s with drv := { s.drv with typec_vbus_gpio := INVALID_GPIO_VALUE } } ret
  else free_gpio1 s ret

/-- Source lines 239-258 of `hisi_hikey_usb_probe`: the cable sink and the role switch.
`ret` is the value the local variable `ret` has on entry. -/
def probe_extcon_role_sw (s : Sys) (ret : Int) : Int × Sys :=
  let s : Sys := { s with drv := { s.drv with edev := s.extcon_allocate } }
  if IS_ERR s.drv.edev then free_gpio2 s ret
  else
    let s : Sys := { s with cable := fun _ => false }
    let ret := s.extcon_register_ret
    if ret < 0 then free_gpio2 s ret
    else
      let s := extcon_set_state s Cable.EXTCON_USB_HOST true
      let s : Sys := { s with drv := { s.drv with role_sw := s.role_switch_register } }
      if IS_ERR s.drv.role_sw then free_gpio2 s ret
      else
        let s : Sys := { s with sw_registered := true, sw_role := usb_role.USB_ROLE_NONE }
        (0, s)

/-- Source lines 222-237 of `hisi_hikey_usb_probe`: the switch line of the
`hisilicon,hikey960_usb` variant, then the rest of the probe. -/
def probe_otg_switch (s : Sys) (root : device_node) (ret : Int) : Int × Sys :=
  if root.hikey960_usb then
    let s : Sys := { s with drv := { s.drv with otg_switch_gpio := root.otg_gpio } }
    if !gpio_is_valid s s.drv.otg_switch_gpio then free_gpio2 s ret
    else
      let r := gpio_request s s.drv.otg_switch_gpio
      if r.1 ≠ 0 then
        free_gpio2 { r.2 with drv := { r.2.drv with otg_switch_gpio := INVALID_GPIO_VALUE } } r.1
      else probe_extcon_role_sw r.2 r.1
  else probe_extcon_role_sw s ret

/-- Source lines 205-220 of `hisi_hikey_usb_probe`: the active level of the Type-C VBUS
line is read and normalised and the line is configured as an output, then the rest. -/
def probe_typec_enable (s : Sys) (root : device_node) : Int × Sys :=
  let ret := root.typc_vbus_enable_val_ret
  if ret ≠ 0 then free_gpio2 s ret
  else
    let s : Sys :=
      { s with drv := { s.drv with
          typec_vbus_enable_val := u32_as_int root.typc_vbus_enable_val } }
    let s : Sys :=
      { s with drv := { s.drv with
          typec_vbus_enable_val := lnot (lnot s.drv.typec_vbus_enable_val) } }
    let r := gpio_direction_output s s.drv.typec_vbus_gpio s.drv.typec_vbus_enable_val
    if r.1 ≠ 0 then free_gpio2 r.2 r.1
    else probe_otg_switch r.2 root r.1

/-- Source lines 189-203 of `hisi_hikey_usb_probe`: the Type-C VBUS line is looked up and
claimed, then the rest. -/
def probe_typec_vbus (s : Sys) (root : device_node) : Int × Sys :=
  let s : Sys := { s with drv := { s.drv with typec_vbus_gpio := root.typec_gpios } }
  if !gpio_is_valid s s.drv.typec_vbus_gpio then free_gpio1 s s.drv.typec_vbus_gpio
  else
    let r := gpio_request s s.drv.typec_vbus_gpio
    if r.1 ≠ 0 then
      free_gpio1 { r.2 with drv := { r.2.drv with typec_vbus_gpio := INVALID_GPIO_VALUE } } r.1
    else probe_typec_enable r.2 root

/-- The function `hisi_hikey_usb_probe` (source lines 151-187 and what follows): the result
code and the state afterwards. -/
def hisi_hikey_usb_probe (s : Sys) (root : device_node) : Int × Sys :=
  if !s.kzalloc_ok then (-ENOMEM, s)
  else
    let s : Sys := { s with drv := hisi_hikey_usb.zeroed }
    let s : Sys := { s with drv := { s.drv with hub_vbus_gpio := INVALID_GPIO_VALUE } }
    let s : Sys := { s with drv := { s.drv with otg_switch_gpio := INVALID_GPIO_VALUE } }
    let s : Sys := { s with drv := { s.drv with typec_vbus_gpio := INVALID_GPIO_VALUE } }
    let s : Sys := { s with drv := { s.drv with hub_vbus_gpio := root.hub_vdd33_en_gpio } }
    if !gpio_is_valid s s.drv.hub_vbus_gpio then (s.drv.hub_vbus_gpio, s)
    else
      let r := gpio_request s s.drv.hub_vbus_gpio
      if r.1 ≠ 0 then
        (r.1, { r.2 with drv := { r.2.drv with hub_vbus_gpio := INVALID_GPIO_VALUE } })
      else
        let r := gpio_direction_output r.2 r.2.drv.hub_vbus_gpio HUB_VBUS_POWER_ON
        if r.1 ≠ 0 then free_gpio1 r.2 r.1
        else probe_typec_vbus r.2 root

/-! ## Detach (source lines 275-297) -/

/-- Modelled from the spec: `usb_role_switch_unregister` of the role-switch class is not in
the source file; it "unregisters the role-switch handle", and a handle that was never
obtained is left alone. -/
def usb_role_switch_unregister (s : Sys) (sw : Ptr) : Sys :=
  if sw = Ptr.VALID then { s with sw_registered := false } else s

/-- The function `hisi_hikey_usb_remove`: the result code and the state afterwards. -/
def hisi_hikey_usb_remove (s : Sys) : Int × Sys :=
  let s : Sys :=
    if gpio_is_valid s s.drv.otg_switch_gpio then
      let s := gpio_free s s.drv.otg_switch_gpio
      { s with drv := { s.drv with otg_switch_gpio := INVALID_GPIO_VALUE } }
    else s
  let s : Sys :=
    if gpio_is_valid s s.drv.typec_vbus_gpio then
      let s := gpio_free s s.drv.typec_vbus_gpio
      { s with drv := { s.drv with typec_vbus_gpio := INVALID_GPIO_VALUE } }
    else s
  let s : Sys :=
    if gpio_is_valid s s.drv.hub_vbus_gpio then
      let s := gpio_free s s.drv.hub_vbus_gpio
      { s with drv := { s.drv with hub_vbus_gpio := INVALID_GPIO_VALUE } }
    else s
  let s := usb_role_switch_unregister s s.drv.role_sw
  (0, s)

/-! ## Observations used in the statements -/

/-- Errno of a device-tree property that does not exist. -/
def ENOENT : Int := 2

/-- The part of a log `after` that was appended to the log `before`. -/
def since {α : Type} (before after : List α) : List α :=
  after.drop before.length

/-- The hardware writes among a list of GPIO operations. -/
def writes (ops : List GpioOp) : List GpioOp :=
  ops.filter GpioOp.is_write

/-- How often a line was released in a list of GPIO operations. -/
def releases (ops : List GpioOp) (line : Int) : Nat :=
  ops.count (GpioOp.gpio_free line)

/-- The levels of the hub-power, Type-C VBUS and switch lines of the context. -/
def line_levels (s : Sys) : Int × Int × Int :=
  (s.level s.drv.hub_vbus_gpio, s.level s.drv.typec_vbus_gpio, s.level s.drv.otg_switch_gpio)

/-- All three lines of the context are present: three real, different lines. -/
def all_present (s : Sys) : Prop :=
  gpio_is_valid s s.drv.hub_vbus_gpio = true ∧
  gpio_is_valid s s.drv.typec_vbus_gpio = true ∧
  gpio_is_valid s s.drv.otg_switch_gpio = true ∧
  s.drv.hub_vbus_gpio ≠ s.drv.typec_vbus_gpio ∧
  s.drv.hub_vbus_gpio ≠ s.drv.otg_switch_gpio ∧
  s.drv.typec_vbus_gpio ≠ s.drv.otg_switch_gpio

/-- The lines of the context that are present are different lines. -/
def lines_distinct (s : Sys) : Prop :=
  (gpio_is_valid s s.drv.hub_vbus_gpio = true → gpio_is_valid s s.drv.typec_vbus_gpio = true →
    s.drv.hub_vbus_gpio ≠ s.drv.typec_vbus_gpio) ∧
  (gpio_is_valid s s.drv.hub_vbus_gpio = true → gpio_is_valid s s.drv.otg_switch_gpio = true →
    s.drv.hub_vbus_gpio ≠ s.drv.otg_switch_gpio) ∧
  (gpio_is_valid s s.drv.typec_vbus_gpio = true → gpio_is_valid s s.drv.otg_switch_gpio = true →
    s.drv.typec_vbus_gpio ≠ s.drv.otg_switch_gpio)

/-- A line read returns the last level written: configuring the Type-C VBUS line or the
switch line as an output at a level does not fail. -/
def writes_land (s : Sys) : Prop :=
  (gpio_is_valid s s.drv.typec_vbus_gpio = true → s.output_err s.drv.typec_vbus_gpio = 0) ∧
  (gpio_is_valid s s.drv.otg_switch_gpio = true → s.output_err s.drv.otg_switch_gpio = 0)

/-- The hub-power line is ON. -/
def hub_on (s : Sys) : Prop :=
  s.level s.drv.hub_vbus_gpio = HUB_VBUS_POWER_ON

/-- The Type-C VBUS line is at its active level. -/
def typec_vbus_active (s : Sys) : Prop :=
  s.level s.drv.typec_vbus_gpio = s.drv.typec_vbus_enable_val

/-- A concrete board: hub power on line 1, Type-C VBUS on line 2 (active high), switch on
line 3, all lines low, nothing claimed, no facility failing. -/
def board : Sys :=
  { drv := { otg_switch_gpio := 3, typec_vbus_gpio := 2, typec_vbus_enable_val := 1,
             hub_vbus_gpio := 1, edev := Ptr.VALID, role_sw := Ptr.VALID },
    ARCH_NR_GPIOS := 512, level := fun _ => 0, requested := [],
    request_err := fun _ => 0, output_err := fun _ => 0, cable := fun _ => false,
    sw_role := usb_role.USB_ROLE_NONE, sw_registered := true, kzalloc_ok := true,
    extcon_allocate := Ptr.VALID, extcon_register_ret := 0, role_switch_register := Ptr.VALID,
    io := [], calls := [] }

/-- The board before the driver is attached: no driver data yet, no role switch. -/
def unprobed : Sys :=
  { board with drv := hisi_hikey_usb.zeroed, sw_registered := false }

/-- The unattached board on which allocating the cable sink fails. -/
def no_cable_sink : Sys :=
  { unprobed with extcon_allocate := Ptr.ERR (-ENOMEM) }

/-- The unattached board on which registering the role switch fails. -/
def no_role_switch : Sys :=
  { unprobed with role_switch_register := Ptr.ERR (-ENOMEM) }

/-- A device-tree node of the `hisilicon,hikey960_usb` variant naming the lines of `board`. -/
def hikey960_node : device_node :=
  { hub_vdd33_en_gpio := 1, typec_gpios := 2, typc_vbus_enable_val_ret := 0,
    typc_vbus_enable_val := 1, hikey960_usb := true, otg_gpio := 3 }

/-- The same node without a resolvable `otg_gpio`. -/
def node_without_otg_gpio : device_node :=
  { hikey960_node with otg_gpio := -ENOENT }

/-- The same node without a resolvable Type-C VBUS line. -/
def node_without_typec_gpio : device_node :=
  { hikey960_node with typec_gpios := -ENOENT }

/-- The lines of the context that are present already have the levels the role asks for
(for HOST nothing is asked of the hub-power line). -/
def settled (s : Sys) (role : usb_role) : Prop :=
  (gpio_is_valid s s.drv.otg_switch_gpio = true →
    s.level s.drv.otg_switch_gpio =
      (if role = usb_role.USB_ROLE_NONE then USB_SWITCH_TO_HUB else USB_SWITCH_TO_TYPEC)) ∧
  (gpio_is_valid s s.drv.typec_vbus_gpio = true →
    s.level s.drv.typec_vbus_gpio =
      (if role = usb_role.USB_ROLE_NONE then lnot s.drv.typec_vbus_enable_val
       else s.drv.typec_vbus_enable_val)) ∧
  (gpio_is_valid s s.drv.hub_vbus_gpio = true → role ≠ usb_role.USB_ROLE_HOST →
    s.level s.drv.hub_vbus_gpio =
      (if role = usb_role.USB_ROLE_NONE then HUB_VBUS_POWER_ON else HUB_VBUS_POWER_OFF))

instance (s : Sys) : Decidable (all_present s) := by
  unfold all_present; infer_instance

instance (s : Sys) : Decidable (lines_distinct s) := by
  unfold lines_distinct; infer_instance

instance (s : Sys) : Decidable (writes_land s) := by
  unfold writes_land; infer_instance

instance (s : Sys) : Decidable (hub_on s) := by
  unfold hub_on; infer_instance

instance (s : Sys) : Decidable (typec_vbus_active s) := by
  unfold typec_vbus_active; infer_instance

/-- The state `t` comes after `s` with every line level and the stored active level of
the Type-C VBUS line as in `s`, and with the GPIO log of `s` continued. -/
def keeps (s t : Sys) : Prop :=
  t.level = s.level ∧ t.drv.typec_vbus_enable_val = s.drv.typec_vbus_enable_val ∧
  ∃ ops, t.io = s.io ++ ops

/-- The state in which the probe arrives at source line 205 when everything before
succeeded: both lines claimed, hub power configured ON. -/
def at_typec_enable (s : Sys) (root : device_node) : Sys :=
  { s with
    drv := { hisi_hikey_usb.zeroed with
      hub_vbus_gpio := root.hub_vdd33_en_gpio, otg_switch_gpio := INVALID_GPIO_VALUE,
      typec_vbus_gpio := root.typec_gpios }
    level := Function.update s.level root.hub_vdd33_en_gpio HUB_VBUS_POWER_ON
    requested := root.typec_gpios :: root.hub_vdd33_en_gpio :: s.requested
    io := s.io ++ [GpioOp.gpio_request root.hub_vdd33_en_gpio,
      GpioOp.gpio_direction_output root.hub_vdd33_en_gpio HUB_VBUS_POWER_ON,
      GpioOp.gpio_request root.typec_gpios] }

/-- The cable announcements among a list of calls, in their order. -/
def announcements (cs : List Call) : List (Cable × Bool) :=
  cs.filterMap fun c =>
    match c with
    | Call.extcon_set_state_sync id state => some (id, state)
    | _ => none

/-- The levels passed to `usb_typec_power_ctrl` among a list of calls, in their order. -/
def typec_levels (cs : List Call) : List Int :=
  cs.filterMap fun c =>
    match c with
    | Call.usb_typec_power_ctrl value => some value
    | _ => none

/-- The releases among a list of GPIO operations, in their order. -/
def frees (ops : List GpioOp) : List Int :=
  ops.filterMap fun o =>
    match o with
    | GpioOp.gpio_free line => some line
    | _ => none

/-- The board on which the switch line cannot be claimed. -/
def switch_line_unclaimable : Sys :=
  { unprobed with request_err := fun line => if line = 3 then -EBUSY else 0 }

/-- The board on which configuring the Type-C VBUS line (line 2) as an output fails with
an input/output error (errno 5). -/
def vbus_write_fails : Sys :=
  { board with output_err := fun line => if line = 2 then -5 else 0 }

/-- The board on which configuring the switch line (line 3) as an output fails with an
input/output error (errno 5). -/
def switch_write_fails : Sys :=
  { board with output_err := fun line => if line = 3 then -5 else 0 }

/-- The board of a variant without a switch line, after a role change to NONE. -/
def board_without_switch : Sys :=
  (extcon_hisi_pd_set_role
    { board with drv := { board.drv with otg_switch_gpio := INVALID_GPIO_VALUE } }
    usb_role.USB_ROLE_NONE).2

/-! ## Frame lemmas: what the actuators leave alone -/

theorem gpio_is_valid_congr (s t : Sys) (h : t.ARCH_NR_GPIOS = s.ARCH_NR_GPIOS)
    (line : Int) : gpio_is_valid t line = gpio_is_valid s line := by
  simp [gpio_is_valid, h]

theorem hub_power_ctrl_calls (s : Sys) (v : Int) :
    (hub_power_ctrl s v).calls = s.calls ++ [Call.hub_power_ctrl v] := by
  unfold hub_power_ctrl gpio_set_value
  dsimp only
  split <;> rfl

theorem usb_switch_ctrl_calls (s : Sys) (v : Int) :
    (usb_switch_ctrl s v).calls = s.calls ++ [Call.usb_switch_ctrl v] := by
  unfold usb_switch_ctrl gpio_direction_output gpio_get_value
  dsimp only
  split_ifs <;> rfl

theorem usb_typec_power_ctrl_calls (s : Sys) (v : Int) :
    (usb_typec_power_ctrl s v).calls = s.calls ++ [Call.usb_typec_power_ctrl v] := by
  unfold usb_typec_power_ctrl gpio_direction_output gpio_get_value
  dsimp only
  split_ifs <;> rfl

theorem hub_power_ctrl_drv (s : Sys) (v : Int) : (hub_power_ctrl s v).drv = s.drv := by
  unfold hub_power_ctrl gpio_set_value
  dsimp only
  split <;> rfl

theorem usb_switch_ctrl_drv (s : Sys) (v : Int) : (usb_switch_ctrl s v).drv = s.drv := by
  unfold usb_switch_ctrl gpio_direction_output gpio_get_value
  dsimp only
  split_ifs <;> rfl

theorem usb_typec_power_ctrl_drv (s : Sys) (v : Int) :
    (usb_typec_power_ctrl s v).drv = s.drv := by
  unfold usb_typec_power_ctrl gpio_direction_output gpio_get_value
  dsimp only
  split_ifs <;> rfl

theorem hub_power_ctrl_frame (s : Sys) (v : Int) :
    (hub_power_ctrl s v).ARCH_NR_GPIOS = s.ARCH_NR_GPIOS ∧
    (hub_power_ctrl s v).output_err = s.output_err ∧
    (hub_power_ctrl s v).cable = s.cable ∧
    (hub_power_ctrl s v).sw_role = s.sw_role ∧
    (hub_power_ctrl s v).requested = s.requested := by
  unfold hub_power_ctrl gpio_set_value
  dsimp only
  split <;> exact ⟨rfl, rfl, rfl, rfl, rfl⟩

theorem usb_switch_ctrl_frame (s : Sys) (v : Int) :
    (usb_switch_ctrl s v).ARCH_NR_GPIOS = s.ARCH_NR_GPIOS ∧
    (usb_switch_ctrl s v).output_err = s.output_err ∧
    (usb_switch_ctrl s v).cable = s.cable ∧
    (usb_switch_ctrl s v).sw_role = s.sw_role ∧
    (usb_switch_ctrl s v).requested = s.requested := by
  unfold usb_switch_ctrl gpio_direction_output gpio_get_value
  dsimp only
  split_ifs <;> exact ⟨rfl, rfl, rfl, rfl, rfl⟩

theorem usb_typec_power_ctrl_frame (s : Sys) (v : Int) :
    (usb_typec_power_ctrl s v).ARCH_NR_GPIOS = s.ARCH_NR_GPIOS ∧
    (usb_typec_power_ctrl s v).output_err = s.output_err ∧
    (usb_typec_power_ctrl s v).cable = s.cable ∧
    (usb_typec_power_ctrl s v).sw_role = s.sw_role ∧
    (usb_typec_power_ctrl s v).requested = s.requested := by
  unfold usb_typec_power_ctrl gpio_direction_output gpio_get_value
  dsimp only
  split_ifs <;> exact ⟨rfl, rfl, rfl, rfl, rfl⟩

/-! ## What the actuators do to the lines -/

theorem hub_power_ctrl_level (s : Sys) (v : Int) :
    (hub_power_ctrl s v).level =
      if gpio_is_valid s s.drv.hub_vbus_gpio = true
      then Function.update s.level s.drv.hub_vbus_gpio v else s.level := by
  unfold hub_power_ctrl gpio_set_value
  simp only [gpio_is_valid]
  split <;> rfl

theorem hub_power_ctrl_io (s : Sys) (v : Int) :
    (hub_power_ctrl s v).io = s.io ++
      (if gpio_is_valid s s.drv.hub_vbus_gpio = true
       then [GpioOp.gpio_set_value s.drv.hub_vbus_gpio v] else []) := by
  unfold hub_power_ctrl gpio_set_value
  simp only [gpio_is_valid]
  split <;> simp

theorem usb_switch_ctrl_level (s : Sys) (v : Int) :
    (usb_switch_ctrl s v).level =
      if gpio_is_valid s s.drv.otg_switch_gpio = true ∧ s.output_err s.drv.otg_switch_gpio = 0
      then Function.update s.level s.drv.otg_switch_gpio v else s.level := by
  unfold usb_switch_ctrl gpio_direction_output gpio_get_value
  simp only [gpio_is_valid]
  split_ifs <;> simp_all

theorem usb_switch_ctrl_io (s : Sys) (v : Int) :
    (usb_switch_ctrl s v).io = s.io ++
      (if gpio_is_valid s s.drv.otg_switch_gpio = true
       then GpioOp.gpio_get_value s.drv.otg_switch_gpio ::
         (if s.level s.drv.otg_switch_gpio = v then []
          else [GpioOp.gpio_direction_output s.drv.otg_switch_gpio v])
       else []) := by
  unfold usb_switch_ctrl gpio_direction_output gpio_get_value
  simp only [gpio_is_valid]
  split_ifs <;> simp_all

theorem usb_typec_power_ctrl_level (s : Sys) (v : Int) :
    (usb_typec_power_ctrl s v).level =
      if gpio_is_valid s s.drv.typec_vbus_gpio = true ∧ s.output_err s.drv.typec_vbus_gpio = 0
      then Function.update s.level s.drv.typec_vbus_gpio v else s.level := by
  unfold usb_typec_power_ctrl gpio_direction_output gpio_get_value
  simp only [gpio_is_valid]
  split_ifs <;> simp_all

theorem usb_typec_power_ctrl_io (s : Sys) (v : Int) :
    (usb_typec_power_ctrl s v).io = s.io ++
      (if gpio_is_valid s s.drv.typec_vbus_gpio = true
       then GpioOp.gpio_get_value s.drv.typec_vbus_gpio ::
         (if s.level s.drv.typec_vbus_gpio = v then []
          else [GpioOp.gpio_direction_output s.drv.typec_vbus_gpio v])
       else []) := by
  unfold usb_typec_power_ctrl gpio_direction_output gpio_get_value
  simp only [gpio_is_valid]
  split_ifs <;> simp_all

theorem lnot_ne_self (x : Int) : lnot x ≠ x := by
  unfold lnot
  split_ifs with h
  · rw [h]; decide
  · exact fun h0 => h h0.symm

theorem update_same {f : Int → Int} {a v : Int} (h : f a = v) : Function.update f a v = f := by
  rw [← h]; exact Function.update_eq_self a f

theorem since_append {α : Type} (l m : List α) : since l (l ++ m) = m := by
  simp [since]

theorem hub_power_ctrl_valid (s : Sys) (v line : Int) :
    gpio_is_valid (hub_power_ctrl s v) line = gpio_is_valid s line :=
  gpio_is_valid_congr s _ (hub_power_ctrl_frame s v).1 line

theorem usb_switch_ctrl_valid (s : Sys) (v line : Int) :
    gpio_is_valid (usb_switch_ctrl s v) line = gpio_is_valid s line :=
  gpio_is_valid_congr s _ (usb_switch_ctrl_frame s v).1 line

theorem usb_typec_power_ctrl_valid (s : Sys) (v line : Int) :
    gpio_is_valid (usb_typec_power_ctrl s v) line = gpio_is_valid s line :=
  gpio_is_valid_congr s _ (usb_typec_power_ctrl_frame s v).1 line

theorem hub_power_ctrl_output_err (s : Sys) (v : Int) :
    (hub_power_ctrl s v).output_err = s.output_err := (hub_power_ctrl_frame s v).2.1

theorem usb_switch_ctrl_output_err (s : Sys) (v : Int) :
    (usb_switch_ctrl s v).output_err = s.output_err := (usb_switch_ctrl_frame s v).2.1

theorem usb_typec_power_ctrl_output_err (s : Sys) (v : Int) :
    (usb_typec_power_ctrl s v).output_err = s.output_err := (usb_typec_power_ctrl_frame s v).2.1

/-! ## What a role change leaves alone and what it does to the lines -/

theorem set_role_ret (s : Sys) (role : usb_role) :
    (extcon_hisi_pd_set_role s role).1 = 0 := by
  cases role <;> rfl

theorem set_role_drv (s : Sys) (role : usb_role) :
    (extcon_hisi_pd_set_role s role).2.drv = s.drv := by
  cases role <;>
    simp [extcon_hisi_pd_set_role, extcon_set_state_sync, hub_power_ctrl_drv,
      usb_switch_ctrl_drv, usb_typec_power_ctrl_drv]

theorem set_role_valid (s : Sys) (role : usb_role) (line : Int) :
    gpio_is_valid (extcon_hisi_pd_set_role s role).2 line = gpio_is_valid s line := by
  apply gpio_is_valid_congr
  cases role <;>
    simp [extcon_hisi_pd_set_role, extcon_set_state_sync, hub_power_ctrl_frame,
      usb_switch_ctrl_frame, usb_typec_power_ctrl_frame]

theorem set_role_output_err (s : Sys) (role : usb_role) :
    (extcon_hisi_pd_set_role s role).2.output_err = s.output_err := by
  cases role <;>
    simp [extcon_hisi_pd_set_role, extcon_set_state_sync, hub_power_ctrl_output_err,
      usb_switch_ctrl_output_err, usb_typec_power_ctrl_output_err]

theorem set_role_all_present (s : Sys) (role : usb_role) (h : all_present s) :
    all_present (extcon_hisi_pd_set_role s role).2 := by
  unfold all_present at *
  simpa [set_role_drv, set_role_valid] using h

theorem set_role_lines_distinct (s : Sys) (role : usb_role) (h : lines_distinct s) :
    lines_distinct (extcon_hisi_pd_set_role s role).2 := by
  unfold lines_distinct at *
  simpa [set_role_drv, set_role_valid] using h

theorem set_role_writes_land (s : Sys) (role : usb_role) (h : writes_land s) :
    writes_land (extcon_hisi_pd_set_role s role).2 := by
  unfold writes_land at *
  simpa [set_role_drv, set_role_output_err, set_role_valid] using h

/-- The levels a role change leaves on the three lines when all of them are present:
hub power, Type-C VBUS, switch. For HOST the hub-power level is the one found. -/
theorem set_role_line_levels (s : Sys) (role : usb_role) (hp : all_present s)
    (hw : writes_land s) :
    line_levels (extcon_hisi_pd_set_role s role).2 =
      match role with
      | usb_role.USB_ROLE_NONE =>
        (HUB_VBUS_POWER_ON, lnot s.drv.typec_vbus_enable_val, USB_SWITCH_TO_HUB)
      | usb_role.USB_ROLE_HOST =>
        (s.level s.drv.hub_vbus_gpio, s.drv.typec_vbus_enable_val, USB_SWITCH_TO_TYPEC)
      | usb_role.USB_ROLE_DEVICE =>
        (HUB_VBUS_POWER_OFF, s.drv.typec_vbus_enable_val, USB_SWITCH_TO_TYPEC) := by
  obtain ⟨h1, h2, h3, d12, d13, d23⟩ := hp
  have w2 := hw.1 h2
  have w3 := hw.2 h3
  cases role <;>
    simp [line_levels, extcon_hisi_pd_set_role, extcon_set_state_sync, hub_power_ctrl_drv,
      usb_switch_ctrl_drv, usb_typec_power_ctrl_drv, hub_power_ctrl_level,
      usb_switch_ctrl_level, usb_typec_power_ctrl_level, hub_power_ctrl_valid,
      usb_switch_ctrl_valid, usb_typec_power_ctrl_valid, hub_power_ctrl_output_err,
      usb_switch_ctrl_output_err, usb_typec_power_ctrl_output_err, h1, h2, h3, w2, w3,
      Function.update_apply, d12, d13, d23, d12.symm, d13.symm, d23.symm]

/-- After a role change the present lines have the levels the role asks for. -/
theorem set_role_settled (s : Sys) (role : usb_role) (hd : lines_distinct s)
    (hw : writes_land s) : settled (extcon_hisi_pd_set_role s role).2 role := by
  obtain ⟨d12, d13, d23⟩ := hd
  obtain ⟨w2, w3⟩ := hw
  unfold settled
  simp only [set_role_drv, set_role_valid]
  by_cases h1 : gpio_is_valid s s.drv.hub_vbus_gpio = true <;>
  by_cases h2 : gpio_is_valid s s.drv.typec_vbus_gpio = true <;>
  by_cases h3 : gpio_is_valid s s.drv.otg_switch_gpio = true <;>
  cases role <;>
  simp_all [extcon_hisi_pd_set_role, extcon_set_state_sync, hub_power_ctrl_drv,
      usb_switch_ctrl_drv, usb_typec_power_ctrl_drv, hub_power_ctrl_level,
      usb_switch_ctrl_level, usb_typec_power_ctrl_level, hub_power_ctrl_valid,
      usb_switch_ctrl_valid, usb_typec_power_ctrl_valid, hub_power_ctrl_output_err,
      usb_switch_ctrl_output_err, usb_typec_power_ctrl_output_err,
      Function.update_apply, Ne.symm]

/-- A role change on lines that already have the levels of the role changes no level and
writes nothing but the hub-power level. -/
theorem set_role_of_settled (s : Sys) (role : usb_role) (h : settled s role) :
    (extcon_hisi_pd_set_role s role).2.level = s.level ∧
    writes (since s.io (extcon_hisi_pd_set_role s role).2.io) =
      (if gpio_is_valid s s.drv.hub_vbus_gpio = true then
        (match role with
          | usb_role.USB_ROLE_NONE =>
            [GpioOp.gpio_set_value s.drv.hub_vbus_gpio HUB_VBUS_POWER_ON]
          | usb_role.USB_ROLE_HOST => []
          | usb_role.USB_ROLE_DEVICE =>
            [GpioOp.gpio_set_value s.drv.hub_vbus_gpio HUB_VBUS_POWER_OFF])
       else []) := by
  obtain ⟨t3, t2, t1⟩ := h
  by_cases h1 : gpio_is_valid s s.drv.hub_vbus_gpio = true <;>
  by_cases h2 : gpio_is_valid s s.drv.typec_vbus_gpio = true <;>
  by_cases h3 : gpio_is_valid s s.drv.otg_switch_gpio = true <;>
  cases role <;>
  simp_all [extcon_hisi_pd_set_role, extcon_set_state_sync, hub_power_ctrl_drv,
      usb_switch_ctrl_drv, usb_typec_power_ctrl_drv, hub_power_ctrl_level,
      usb_switch_ctrl_level, usb_typec_power_ctrl_level, hub_power_ctrl_valid,
      usb_switch_ctrl_valid, usb_typec_power_ctrl_valid, hub_power_ctrl_output_err,
      usb_switch_ctrl_output_err, usb_typec_power_ctrl_output_err,
      hub_power_ctrl_io, usb_switch_ctrl_io, usb_typec_power_ctrl_io,
      since, writes, GpioOp.is_write, update_same]

/-! ## Normalising the polarity -/

theorem u32_as_int_eq_zero (v : Nat) : u32_as_int v = 0 ↔ v % 2 ^ 32 = 0 := by
  unfold u32_as_int
  have hlt : v % 2 ^ 32 < 2 ^ 32 := Nat.mod_lt _ (by norm_num)
  split_ifs with h <;> omega

theorem normalised (v : Nat) :
    lnot (lnot (u32_as_int v)) = if v % 2 ^ 32 = 0 then 0 else 1 := by
  unfold lnot
  simp only [u32_as_int_eq_zero]
  split_ifs <;> simp_all

/-! ## The unwind labels -/

theorem keeps_refl (s : Sys) : keeps s s := ⟨rfl, rfl, [], by simp⟩

theorem keeps_trans {s t u : Sys} (h1 : keeps s t) (h2 : keeps t u) : keeps s u := by
  obtain ⟨a1, a2, o1, a3⟩ := h1
  obtain ⟨b1, b2, o2, b3⟩ := h2
  exact ⟨b1.trans a1, b2.trans a2, o1 ++ o2, by rw [b3, a3, List.append_assoc]⟩

theorem free_gpio1_ret (s : Sys) (ret : Int) : (free_gpio1 s ret).1 = ret := by
  unfold free_gpio1; split <;> rfl

theorem free_gpio1_io (s : Sys) (ret : Int) :
    (free_gpio1 s ret).2.io = s.io ++
      (if gpio_is_valid s s.drv.hub_vbus_gpio = true
       then [GpioOp.gpio_free s.drv.hub_vbus_gpio] else []) := by
  unfold free_gpio1 gpio_free; split <;> simp

theorem free_gpio1_requested (s : Sys) (ret : Int) :
    (free_gpio1 s ret).2.requested =
      (if gpio_is_valid s s.drv.hub_vbus_gpio = true
       then s.requested.erase s.drv.hub_vbus_gpio else s.requested) := by
  unfold free_gpio1 gpio_free; split <;> rfl

theorem free_gpio1_keeps (s : Sys) (ret : Int) : keeps s (free_gpio1 s ret).2 := by
  refine ⟨?_, ?_, _, free_gpio1_io s ret⟩ <;>
  · unfold free_gpio1 gpio_free; split <;> rfl

theorem free_gpio2_ret (s : Sys) (ret : Int) : (free_gpio2 s ret).1 = ret := by
  unfold free_gpio2; split <;> exact free_gpio1_ret _ _

theorem free_gpio2_io (s : Sys) (ret : Int) :
    (free_gpio2 s ret).2.io = s.io ++
      ((if gpio_is_valid s s.drv.typec_vbus_gpio = true
        then [GpioOp.gpio_free s.drv.typec_vbus_gpio] else []) ++
       (if gpio_is_valid s s.drv.hub_vbus_gpio = true
        then [GpioOp.gpio_free s.drv.hub_vbus_gpio] else [])) := by
  unfold free_gpio2 gpio_free
  split <;> simp [free_gpio1_io, gpio_is_valid]

theorem free_gpio2_requested (s : Sys) (ret : Int) :
    (free_gpio2 s ret).2.requested =
      (if gpio_is_valid s s.drv.hub_vbus_gpio = true
       then (if gpio_is_valid s s.drv.typec_vbus_gpio = true
             then s.requested.erase s.drv.typec_vbus_gpio else s.requested).erase
               s.drv.hub_vbus_gpio
       else (if gpio_is_valid s s.drv.typec_vbus_gpio = true
             then s.requested.erase s.drv.typec_vbus_gpio else s.requested)) := by
  unfold free_gpio2 gpio_free
  split <;> simp_all [free_gpio1_requested, gpio_is_valid]

theorem free_gpio2_keeps (s : Sys) (ret : Int) : keeps s (free_gpio2 s ret).2 := by
  refine ⟨?_, ?_, _, free_gpio2_io s ret⟩
  · unfold free_gpio2 gpio_free
    split <;> simp [(free_gpio1_keeps _ _).1]
  · unfold free_gpio2 gpio_free
    split <;> simp [(free_gpio1_keeps _ _).2.1]

/-! ## The stages of the probe -/

theorem gpio_request_keeps (s : Sys) (line : Int) : keeps s (gpio_request s line).2 := by
  unfold gpio_request
  simp only []
  split_ifs <;> exact ⟨rfl, rfl, [GpioOp.gpio_request line], rfl⟩

theorem probe_extcon_role_sw_keeps (s : Sys) (ret : Int) :
    keeps s (probe_extcon_role_sw s ret).2 := by
  unfold keeps probe_extcon_role_sw extcon_set_state
  simp only []
  split_ifs <;>
    simp [(free_gpio2_keeps _ _).1, (free_gpio2_keeps _ _).2.1, free_gpio2_io]

theorem probe_otg_switch_keeps (s : Sys) (root : device_node) (ret : Int) :
    keeps s (probe_otg_switch s root ret).2 := by
  unfold probe_otg_switch
  simp only []
  split_ifs
  · unfold keeps
    simp [(free_gpio2_keeps _ _).1, (free_gpio2_keeps _ _).2.1, free_gpio2_io]
  · obtain ⟨h1, h2, ops, h3⟩ := gpio_request_keeps
      { s with drv := { s.drv with otg_switch_gpio := root.otg_gpio } } root.otg_gpio
    unfold keeps
    simp only [(free_gpio2_keeps _ _).1, (free_gpio2_keeps _ _).2.1, free_gpio2_io, h1, h2, h3]
    simp [List.append_assoc]
  · obtain ⟨h1, h2, ops, h3⟩ := gpio_request_keeps
      { s with drv := { s.drv with otg_switch_gpio := root.otg_gpio } } root.otg_gpio
    obtain ⟨k1, k2, ops2, k3⟩ := probe_extcon_role_sw_keeps
      (gpio_request { s with drv := { s.drv with otg_switch_gpio := root.otg_gpio } }
        root.otg_gpio).2
      (gpio_request { s with drv := { s.drv with otg_switch_gpio := root.otg_gpio } }
        root.otg_gpio).1
    exact ⟨k1.trans h1, k2.trans h2, ops ++ ops2, by rw [k3, h3]; simp⟩
  · exact probe_extcon_role_sw_keeps s ret

/-- What a state reached with `keeps` inherits from a state in which a line was just
configured as an output. -/
theorem of_keeps {s m t : Sys} {line en : Int} (k : keeps m t)
    (h1 : m.drv.typec_vbus_enable_val = en) (h2 : m.level line = en)
    (h3 : m.io = s.io ++ [GpioOp.gpio_direction_output line en]) :
    t.drv.typec_vbus_enable_val = en ∧ t.level line = en ∧
    ∃ post, t.io = s.io ++ [GpioOp.gpio_direction_output line en] ++ post := by
  obtain ⟨k1, k2, ops, k3⟩ := k
  exact ⟨k2.trans h1, by rw [k1, h2], ops, by rw [k3, h3]⟩

theorem probe_typec_enable_zero (s : Sys) (root : device_node)
    (h0 : (probe_typec_enable s root).1 = 0) :
    (probe_typec_enable s root).2.drv.typec_vbus_enable_val =
      lnot (lnot (u32_as_int root.typc_vbus_enable_val)) ∧
    (probe_typec_enable s root).2.level s.drv.typec_vbus_gpio =
      lnot (lnot (u32_as_int root.typc_vbus_enable_val)) ∧
    ∃ post, (probe_typec_enable s root).2.io = s.io ++
      [GpioOp.gpio_direction_output s.drv.typec_vbus_gpio
        (lnot (lnot (u32_as_int root.typc_vbus_enable_val)))] ++ post := by
  revert h0
  unfold probe_typec_enable
  simp only []
  split_ifs with he ho
  · intro h0
    rw [free_gpio2_ret] at h0
    exact absurd h0 he
  · intro h0
    rw [free_gpio2_ret] at h0
    exact absurd h0 ho
  · intro _
    refine of_keeps (probe_otg_switch_keeps _ root _) ?_ ?_ ?_
    · unfold gpio_direction_output; simp only []; split_ifs <;> rfl
    · unfold gpio_direction_output at ho ⊢
      simp only [] at ho ⊢
      split_ifs at ho ⊢ with hx
      · simp at ho; exact absurd ho hx
      · simp
    · unfold gpio_direction_output; simp only []; split_ifs <;> rfl

theorem probe_typec_vbus_zero (s : Sys) (root : device_node) (hn : 0 < s.ARCH_NR_GPIOS)
    (h0 : (probe_typec_vbus s root).1 = 0) :
    (probe_typec_vbus s root).2.drv.typec_vbus_enable_val =
      lnot (lnot (u32_as_int root.typc_vbus_enable_val)) ∧
    (probe_typec_vbus s root).2.level root.typec_gpios =
      lnot (lnot (u32_as_int root.typc_vbus_enable_val)) ∧
    ∃ pre post, (probe_typec_vbus s root).2.io = s.io ++ pre ++
      [GpioOp.gpio_direction_output root.typec_gpios
        (lnot (lnot (u32_as_int root.typc_vbus_enable_val)))] ++ post := by
  revert h0
  unfold probe_typec_vbus
  simp only []
  split_ifs with hv hr
  · intro h0
    rw [free_gpio1_ret] at h0
    exact absurd h0 (by intro e; simp [gpio_is_valid, e, hn] at hv)
  · intro h0
    rw [free_gpio1_ret] at h0
    exact absurd h0 hr
  · intro h0
    obtain ⟨_, h2, ops, h3⟩ := gpio_request_keeps
      { s with drv := { s.drv with typec_vbus_gpio := root.typec_gpios } } root.typec_gpios
    have hg : (gpio_request
        { s with drv := { s.drv with typec_vbus_gpio := root.typec_gpios } }
        root.typec_gpios).2.drv.typec_vbus_gpio = root.typec_gpios := by
      unfold gpio_request; simp only []; split_ifs <;> rfl
    obtain ⟨e1, e2, post, e3⟩ := probe_typec_enable_zero _ root h0
    rw [hg] at e2 e3
    exact ⟨e1, e2, ops, post, by rw [e3, h3]⟩

theorem probe_zero (s : Sys) (root : device_node)
    (hn : 0 < s.ARCH_NR_GPIOS) (h0 : (hisi_hikey_usb_probe s root).1 = 0) :
    (hisi_hikey_usb_probe s root).2.drv.typec_vbus_enable_val =
      lnot (lnot (u32_as_int root.typc_vbus_enable_val)) ∧
    (hisi_hikey_usb_probe s root).2.level root.typec_gpios =
      lnot (lnot (u32_as_int root.typc_vbus_enable_val)) ∧
    ∃ pre post, (hisi_hikey_usb_probe s root).2.io = s.io ++ pre ++
      [GpioOp.gpio_direction_output root.typec_gpios
        (lnot (lnot (u32_as_int root.typc_vbus_enable_val)))] ++ post := by
  revert h0
  unfold hisi_hikey_usb_probe
  simp only []
  split_ifs with hk hv hr ho
  · intro h0
    simp [ENOMEM] at h0
  · intro h0
    have e : root.hub_vdd33_en_gpio = 0 := h0
    simp [gpio_is_valid, e, hn] at hv
  · intro h0
    exact absurd h0 hr
  · intro h0
    rw [free_gpio1_ret] at h0
    exact absurd h0 ho
  · intro h0
    have hq : ∀ q : Sys, ∃ ops, (gpio_direction_output (gpio_request q
        q.drv.hub_vbus_gpio).2 (gpio_request q q.drv.hub_vbus_gpio).2.drv.hub_vbus_gpio
        HUB_VBUS_POWER_ON).2.io = q.io ++ ops ∧
        (gpio_direction_output (gpio_request q
        q.drv.hub_vbus_gpio).2 (gpio_request q q.drv.hub_vbus_gpio).2.drv.hub_vbus_gpio
        HUB_VBUS_POWER_ON).2.ARCH_NR_GPIOS = q.ARCH_NR_GPIOS := by
      intro q
      unfold gpio_direction_output gpio_request
      simp only []
      split_ifs <;> simp
    obtain ⟨ops, hio, hnr⟩ := hq { s with drv := { hisi_hikey_usb.zeroed with
      hub_vbus_gpio := root.hub_vdd33_en_gpio, otg_switch_gpio := INVALID_GPIO_VALUE,
      typec_vbus_gpio := INVALID_GPIO_VALUE } }
    obtain ⟨e1, e2, pre, post, e3⟩ := probe_typec_vbus_zero _ root (by rw [hnr]; exact hn) h0
    exact ⟨e1, e2, ops ++ pre, post, by rw [e3, hio]; simp⟩

theorem after_output {s m t : Sys} {line en : Int} (k : keeps m t)
    (h1 : m.drv.typec_vbus_enable_val = en)
    (h2 : s.output_err line = 0 → m.level line = en)
    (h3 : m.io = s.io ++ [GpioOp.gpio_direction_output line en]) :
    t.drv.typec_vbus_enable_val = en ∧
    (s.output_err line = 0 → t.level line = en) ∧
    ∃ post, t.io = s.io ++ [GpioOp.gpio_direction_output line en] ++ post := by
  obtain ⟨k1, k2, ops, k3⟩ := k
  exact ⟨k2.trans h1, fun hz => by rw [k1, h2 hz], ops, by rw [k3, h3]⟩

theorem probe_typec_enable_reached (s : Sys) (root : device_node)
    (te : root.typc_vbus_enable_val_ret = 0) :
    (probe_typec_enable s root).2.drv.typec_vbus_enable_val =
      lnot (lnot (u32_as_int root.typc_vbus_enable_val)) ∧
    (s.output_err s.drv.typec_vbus_gpio = 0 →
      (probe_typec_enable s root).2.level s.drv.typec_vbus_gpio =
        lnot (lnot (u32_as_int root.typc_vbus_enable_val))) ∧
    ∃ post, (probe_typec_enable s root).2.io = s.io ++
      [GpioOp.gpio_direction_output s.drv.typec_vbus_gpio
        (lnot (lnot (u32_as_int root.typc_vbus_enable_val)))] ++ post := by
  unfold probe_typec_enable
  simp only []
  split_ifs with he ho
  · exact absurd te he
  · refine after_output (free_gpio2_keeps _ _) ?_ ?_ ?_
    · unfold gpio_direction_output; simp only []; split_ifs <;> rfl
    · intro hz
      unfold gpio_direction_output; simp [hz]
    · unfold gpio_direction_output; simp only []; split_ifs <;> rfl
  · refine after_output (probe_otg_switch_keeps _ root _) ?_ ?_ ?_
    · unfold gpio_direction_output; simp only []; split_ifs <;> rfl
    · intro hz
      unfold gpio_direction_output; simp [hz]
    · unfold gpio_direction_output; simp only []; split_ifs <;> rfl

theorem probe_reaches_typec_enable (s : Sys) (root : device_node)
    (hk : s.kzalloc_ok = true)
    (hv : gpio_is_valid s root.hub_vdd33_en_gpio = true)
    (hc : root.hub_vdd33_en_gpio ∉ s.requested)
    (hr : s.request_err root.hub_vdd33_en_gpio = 0)
    (ho : s.output_err root.hub_vdd33_en_gpio = 0)
    (tv : gpio_is_valid s root.typec_gpios = true)
    (tn : root.typec_gpios ≠ root.hub_vdd33_en_gpio)
    (tc : root.typec_gpios ∉ s.requested)
    (tr : s.request_err root.typec_gpios = 0) :
    hisi_hikey_usb_probe s root = probe_typec_enable (at_typec_enable s root) root := by
  simp only [gpio_is_valid] at hv tv
  simp [hisi_hikey_usb_probe, probe_typec_vbus, gpio_request, at_typec_enable,
      gpio_direction_output, gpio_is_valid, hk, hv, hc, hr, ho, tv, tn, tc, tr]

theorem set_role_calls_device (s : Sys) :
    (extcon_hisi_pd_set_role s usb_role.USB_ROLE_DEVICE).2.calls = s.calls ++
      [Call.hub_power_ctrl HUB_VBUS_POWER_OFF,
       Call.usb_typec_power_ctrl s.drv.typec_vbus_enable_val,
       Call.usb_switch_ctrl USB_SWITCH_TO_TYPEC,
       Call.extcon_set_state_sync Cable.EXTCON_USB_HOST false,
       Call.extcon_set_state_sync Cable.EXTCON_USB true] := by
  simp [extcon_hisi_pd_set_role, extcon_set_state_sync, hub_power_ctrl_calls,
    usb_switch_ctrl_calls, usb_typec_power_ctrl_calls, hub_power_ctrl_drv,
    usb_switch_ctrl_drv, usb_typec_power_ctrl_drv]

theorem set_role_calls_host (s : Sys) :
    (extcon_hisi_pd_set_role s usb_role.USB_ROLE_HOST).2.calls = s.calls ++
      [Call.usb_switch_ctrl USB_SWITCH_TO_TYPEC,
       Call.usb_typec_power_ctrl s.drv.typec_vbus_enable_val,
       Call.extcon_set_state_sync Cable.EXTCON_USB false,
       Call.extcon_set_state_sync Cable.EXTCON_USB_HOST true] := by
  simp [extcon_hisi_pd_set_role, extcon_set_state_sync, hub_power_ctrl_calls,
    usb_switch_ctrl_calls, usb_typec_power_ctrl_calls, hub_power_ctrl_drv,
    usb_switch_ctrl_drv, usb_typec_power_ctrl_drv]

theorem set_role_calls_none (s : Sys) :
    (extcon_hisi_pd_set_role s usb_role.USB_ROLE_NONE).2.calls = s.calls ++
      [Call.usb_switch_ctrl USB_SWITCH_TO_HUB,
       Call.usb_typec_power_ctrl (lnot s.drv.typec_vbus_enable_val),
       Call.hub_power_ctrl HUB_VBUS_POWER_ON,
       Call.extcon_set_state_sync Cable.EXTCON_USB false,
       Call.extcon_set_state_sync Cable.EXTCON_USB_HOST true] := by
  simp [extcon_hisi_pd_set_role, extcon_set_state_sync, hub_power_ctrl_calls,
    usb_switch_ctrl_calls, usb_typec_power_ctrl_calls, hub_power_ctrl_drv,
    usb_switch_ctrl_drv, usb_typec_power_ctrl_drv]

theorem hub_power_ctrl_cable (s : Sys) (v : Int) :
    (hub_power_ctrl s v).cable = s.cable := (hub_power_ctrl_frame s v).2.2.1

theorem usb_switch_ctrl_cable (s : Sys) (v : Int) :
    (usb_switch_ctrl s v).cable = s.cable := (usb_switch_ctrl_frame s v).2.2.1

theorem usb_typec_power_ctrl_cable (s : Sys) (v : Int) :
    (usb_typec_power_ctrl s v).cable = s.cable := (usb_typec_power_ctrl_frame s v).2.2.1

theorem remove_unfold (s : Sys) :
    (hisi_hikey_usb_remove s).1 = 0 ∧
    (hisi_hikey_usb_remove s).2.io = s.io ++
      ((if gpio_is_valid s s.drv.otg_switch_gpio = true
        then [GpioOp.gpio_free s.drv.otg_switch_gpio] else []) ++
       (if gpio_is_valid s s.drv.typec_vbus_gpio = true
        then [GpioOp.gpio_free s.drv.typec_vbus_gpio] else []) ++
       (if gpio_is_valid s s.drv.hub_vbus_gpio = true
        then [GpioOp.gpio_free s.drv.hub_vbus_gpio] else [])) ∧
    (hisi_hikey_usb_remove s).2.ARCH_NR_GPIOS = s.ARCH_NR_GPIOS ∧
    (hisi_hikey_usb_remove s).2.drv.otg_switch_gpio =
      (if gpio_is_valid s s.drv.otg_switch_gpio = true then INVALID_GPIO_VALUE
       else s.drv.otg_switch_gpio) ∧
    (hisi_hikey_usb_remove s).2.drv.typec_vbus_gpio =
      (if gpio_is_valid s s.drv.typec_vbus_gpio = true then INVALID_GPIO_VALUE
       else s.drv.typec_vbus_gpio) ∧
    (hisi_hikey_usb_remove s).2.drv.hub_vbus_gpio =
      (if gpio_is_valid s s.drv.hub_vbus_gpio = true then INVALID_GPIO_VALUE
       else s.drv.hub_vbus_gpio) ∧
    (hisi_hikey_usb_remove s).2.drv.role_sw = s.drv.role_sw ∧
    (hisi_hikey_usb_remove s).2.sw_registered =
      (if s.drv.role_sw = Ptr.VALID then false else s.sw_registered) ∧
    (hisi_hikey_usb_remove s).2.requested =
      List.foldl List.erase s.requested
        ((if gpio_is_valid s s.drv.otg_switch_gpio = true
          then [s.drv.otg_switch_gpio] else []) ++
         (if gpio_is_valid s s.drv.typec_vbus_gpio = true
          then [s.drv.typec_vbus_gpio] else []) ++
         (if gpio_is_valid s s.drv.hub_vbus_gpio = true
          then [s.drv.hub_vbus_gpio] else [])) := by
  by_cases h1 : gpio_is_valid s s.drv.hub_vbus_gpio = true <;>
  by_cases h2 : gpio_is_valid s s.drv.typec_vbus_gpio = true <;>
  by_cases h3 : gpio_is_valid s s.drv.otg_switch_gpio = true <;>
  by_cases h4 : s.drv.role_sw = Ptr.VALID <;>
  · simp only [gpio_is_valid] at h1 h2 h3
    simp [hisi_hikey_usb_remove, usb_role_switch_unregister, gpio_free, gpio_is_valid,
      h1, h2, h3, h4]

theorem set_role_device_io (t : Sys) (hp : all_present t)
    (e2 : t.level t.drv.typec_vbus_gpio = t.drv.typec_vbus_enable_val)
    (e3 : t.level t.drv.otg_switch_gpio = USB_SWITCH_TO_TYPEC) :
    (extcon_hisi_pd_set_role t usb_role.USB_ROLE_DEVICE).2.io = t.io ++
      [GpioOp.gpio_set_value t.drv.hub_vbus_gpio HUB_VBUS_POWER_OFF,
       GpioOp.gpio_get_value t.drv.typec_vbus_gpio,
       GpioOp.gpio_get_value t.drv.otg_switch_gpio] := by
  obtain ⟨h1, h2, h3, d12, d13, d23⟩ := hp
  simp [extcon_hisi_pd_set_role, extcon_set_state_sync, hub_power_ctrl_drv,
    usb_switch_ctrl_drv, usb_typec_power_ctrl_drv, hub_power_ctrl_valid,
    usb_switch_ctrl_valid, usb_typec_power_ctrl_valid, hub_power_ctrl_io,
    usb_switch_ctrl_io, usb_typec_power_ctrl_io, hub_power_ctrl_level,
    usb_typec_power_ctrl_level, hub_power_ctrl_output_err, Function.update_apply,
    h1, h2, h3, d12, d13, d23, d12.symm, d13.symm, d23.symm, e2, e3, update_same]

/-! ## The lines of a context built by the probe are different lines -/

theorem invalid_sentinel (s : Sys) : gpio_is_valid s INVALID_GPIO_VALUE = false := by
  simp [gpio_is_valid, INVALID_GPIO_VALUE]

theorem lines_distinct_of_absent (s : Sys)
    (h1 : gpio_is_valid s s.drv.hub_vbus_gpio = false)
    (h2 : gpio_is_valid s s.drv.typec_vbus_gpio = false) : lines_distinct s := by
  refine ⟨?_, ?_, ?_⟩
  · intro h; rw [h1] at h; exact absurd h (by decide)
  · intro h; rw [h1] at h; exact absurd h (by decide)
  · intro h; rw [h2] at h; exact absurd h (by decide)

theorem free_gpio1_absent (s : Sys) (ret : Int) :
    gpio_is_valid (free_gpio1 s ret).2 (free_gpio1 s ret).2.drv.hub_vbus_gpio = false ∧
    (gpio_is_valid s s.drv.typec_vbus_gpio = false →
      gpio_is_valid (free_gpio1 s ret).2 (free_gpio1 s ret).2.drv.typec_vbus_gpio = false) := by
  unfold free_gpio1 gpio_free
  by_cases h : gpio_is_valid s s.drv.hub_vbus_gpio = true
  · simp only [h, if_true]
    refine ⟨invalid_sentinel _, fun h2 => ?_⟩
    simpa [gpio_is_valid] using h2
  · simp only [h]
    refine ⟨by simpa using h, fun h2 => h2⟩

theorem free_gpio1_distinct (s : Sys) (ret : Int)
    (h2 : gpio_is_valid s s.drv.typec_vbus_gpio = false) :
    lines_distinct (free_gpio1 s ret).2 :=
  lines_distinct_of_absent _ (free_gpio1_absent s ret).1 ((free_gpio1_absent s ret).2 h2)

theorem free_gpio2_distinct (s : Sys) (ret : Int) : lines_distinct (free_gpio2 s ret).2 := by
  unfold free_gpio2 gpio_free
  by_cases h : gpio_is_valid s s.drv.typec_vbus_gpio = true
  · simp only [h, if_true]
    exact free_gpio1_distinct _ ret (invalid_sentinel _)
  · simp only [h]
    exact free_gpio1_distinct s ret (by simpa using h)

theorem probe_extcon_role_sw_distinct (s : Sys) (ret : Int) (h : lines_distinct s) :
    lines_distinct (probe_extcon_role_sw s ret).2 := by
  unfold probe_extcon_role_sw extcon_set_state
  simp only []
  split_ifs
  · exact free_gpio2_distinct _ _
  · exact free_gpio2_distinct _ _
  · exact free_gpio2_distinct _ _
  · exact h

theorem gpio_request_ok (q : Sys) (line : Int) (h : (gpio_request q line).1 = 0) :
    line ∉ q.requested ∧
    (gpio_request q line).2 =
      { q with io := q.io ++ [GpioOp.gpio_request line], requested := line :: q.requested } := by
  revert h
  unfold gpio_request
  simp only []
  split_ifs with h1 h2
  · intro h; simp [EBUSY] at h
  · intro h; exact absurd h h2
  · intro _; exact ⟨h1, rfl⟩

theorem probe_otg_switch_distinct (s : Sys) (root : device_node) (ret : Int)
    (hd : s.drv.hub_vbus_gpio ≠ s.drv.typec_vbus_gpio)
    (h1 : s.drv.hub_vbus_gpio ∈ s.requested) (h2 : s.drv.typec_vbus_gpio ∈ s.requested)
    (h3 : gpio_is_valid s s.drv.otg_switch_gpio = false) :
    lines_distinct (probe_otg_switch s root ret).2 := by
  unfold probe_otg_switch
  simp only []
  split_ifs with hw hv hr
  · exact free_gpio2_distinct _ _
  · exact free_gpio2_distinct _ _
  · apply probe_extcon_role_sw_distinct
    have hr0 : (gpio_request { s with drv := { s.drv with otg_switch_gpio := root.otg_gpio } }
        root.otg_gpio).1 = 0 := by
      by_contra hne; exact hr hne
    obtain ⟨hn, he⟩ := gpio_request_ok _ _ hr0
    rw [he]
    refine ⟨fun _ _ => hd, fun _ _ e => hn ?_, fun _ _ e => hn ?_⟩
    · have e' : s.drv.hub_vbus_gpio = root.otg_gpio := e
      rw [← e']; exact h1
    · have e' : s.drv.typec_vbus_gpio = root.otg_gpio := e
      rw [← e']; exact h2
  · apply probe_extcon_role_sw_distinct
    refine ⟨fun _ _ => hd, fun _ h => ?_, fun _ h => ?_⟩
    · rw [h3] at h; exact absurd h (by decide)
    · rw [h3] at h; exact absurd h (by decide)

theorem probe_typec_enable_distinct (s : Sys) (root : device_node)
    (hd : s.drv.hub_vbus_gpio ≠ s.drv.typec_vbus_gpio)
    (h1 : s.drv.hub_vbus_gpio ∈ s.requested) (h2 : s.drv.typec_vbus_gpio ∈ s.requested)
    (h3 : gpio_is_valid s s.drv.otg_switch_gpio = false) :
    lines_distinct (probe_typec_enable s root).2 := by
  unfold probe_typec_enable
  simp only []
  split_ifs with he ho
  · exact free_gpio2_distinct _ _
  · exact free_gpio2_distinct _ _
  · apply probe_otg_switch_distinct
    · unfold gpio_direction_output; simp only []; split_ifs <;> exact hd
    · unfold gpio_direction_output; simp only []; split_ifs <;> exact h1
    · unfold gpio_direction_output; simp only []; split_ifs <;> exact h2
    · unfold gpio_direction_output; simp only []
      split_ifs <;> simpa [gpio_is_valid] using h3

theorem probe_typec_vbus_distinct (s : Sys) (root : device_node)
    (h1 : s.drv.hub_vbus_gpio ∈ s.requested)
    (h3 : gpio_is_valid s s.drv.otg_switch_gpio = false) :
    lines_distinct (probe_typec_vbus s root).2 := by
  unfold probe_typec_vbus
  simp only []
  split_ifs with hv hr
  · apply free_gpio1_distinct
    simpa using hv
  · apply free_gpio1_distinct
    exact invalid_sentinel _
  · have hr0 : (gpio_request { s with drv := { s.drv with typec_vbus_gpio := root.typec_gpios } }
        root.typec_gpios).1 = 0 := by
      by_contra hne; exact hr hne
    obtain ⟨hn, he⟩ := gpio_request_ok _ _ hr0
    rw [he]
    apply probe_typec_enable_distinct
    · intro e
      have e' : s.drv.hub_vbus_gpio = root.typec_gpios := e
      exact hn (by rw [← e']; exact h1)
    · exact List.mem_cons_of_mem _ h1
    · exact List.mem_cons_self _ _
    · simpa [gpio_is_valid] using h3

/-- Whatever the configuration and the outcome, the context the probe leaves behind has
different lines where it has lines: a line cannot be claimed twice. -/
theorem probe_lines_distinct (s : Sys) (root : device_node) (hk : s.kzalloc_ok = true) :
    lines_distinct (hisi_hikey_usb_probe s root).2 := by
  unfold hisi_hikey_usb_probe
  simp only []
  split_ifs with hz hv hr ho
  · rw [hk] at hz; exact absurd hz (by decide)
  · apply lines_distinct_of_absent
    · simpa using hv
    · exact invalid_sentinel _
  · apply lines_distinct_of_absent
    · exact invalid_sentinel _
    · unfold gpio_request; simp only []
      split_ifs <;> exact invalid_sentinel _
  · apply free_gpio1_distinct
    unfold gpio_direction_output gpio_request; simp only []
    split_ifs <;> exact invalid_sentinel _
  · have hr0 : (gpio_request { s with drv := { hisi_hikey_usb.zeroed with
        hub_vbus_gpio := root.hub_vdd33_en_gpio, otg_switch_gpio := INVALID_GPIO_VALUE,
        typec_vbus_gpio := INVALID_GPIO_VALUE } } root.hub_vdd33_en_gpio).1 = 0 := by
      by_contra hne; exact hr hne
    obtain ⟨hn, he⟩ := gpio_request_ok _ _ hr0
    apply probe_typec_vbus_distinct
    · unfold gpio_direction_output; simp only []
      split_ifs <;> (rw [he]; exact List.mem_cons_self _ _)
    · unfold gpio_direction_output; simp only []
      split_ifs <;> (rw [he]; exact invalid_sentinel _)

/-! ## The claims -/

/-- C1: whatever the role and the state, `extcon_hisi_pd_set_role` makes exactly the
actuator calls and cable announcements of the transition table, in its order, and no
other: NONE = switch to HUB, Type-C VBUS to the logical NOT of the active level, hub
power ON, USB=false, USB_HOST=true; HOST = switch to TYPEC, Type-C VBUS to the active
level, USB=false, USB_HOST=true; DEVICE = hub power OFF, Type-C VBUS to the active level,
switch to TYPEC, USB_HOST=false, USB=true. -/
theorem set_role_follows_transition_table (s : Sys) (role : usb_role) :
    (extcon_hisi_pd_set_role s role).2.calls = s.calls ++
      (match role with
        | usb_role.USB_ROLE_NONE =>
          [Call.usb_switch_ctrl USB_SWITCH_TO_HUB,
           Call.usb_typec_power_ctrl (lnot s.drv.typec_vbus_enable_val),
           Call.hub_power_ctrl HUB_VBUS_POWER_ON,
           Call.extcon_set_state_sync Cable.EXTCON_USB false,
           Call.extcon_set_state_sync Cable.EXTCON_USB_HOST true]
        | usb_role.USB_ROLE_HOST =>
          [Call.usb_switch_ctrl USB_SWITCH_TO_TYPEC,
           Call.usb_typec_power_ctrl s.drv.typec_vbus_enable_val,
           Call.extcon_set_state_sync Cable.EXTCON_USB false,
           Call.extcon_set_state_sync Cable.EXTCON_USB_HOST true]
        | usb_role.USB_ROLE_DEVICE =>
          [Call.hub_power_ctrl HUB_VBUS_POWER_OFF,
           Call.usb_typec_power_ctrl s.drv.typec_vbus_enable_val,
           Call.usb_switch_ctrl USB_SWITCH_TO_TYPEC,
           Call.extcon_set_state_sync Cable.EXTCON_USB_HOST false,
           Call.extcon_set_state_sync Cable.EXTCON_USB true]) := by
  cases role <;>
    simp [extcon_hisi_pd_set_role, extcon_set_state_sync, hub_power_ctrl_calls,
      usb_switch_ctrl_calls, usb_typec_power_ctrl_calls, hub_power_ctrl_drv,
      usb_switch_ctrl_drv, usb_typec_power_ctrl_drv]

/-- C2 (as stated, refuted): on the board with all three lines present, HOST requested after
NONE leaves the hub-power line at 1, HOST requested after DEVICE leaves it at 0, so the
levels after `set_role(R1); set_role(HOST)` depend on R1. -/
theorem host_hub_level_depends_on_previous_role :
    all_present board ∧ writes_land board ∧
    line_levels (extcon_hisi_pd_set_role
      (extcon_hisi_pd_set_role board usb_role.USB_ROLE_NONE).2 usb_role.USB_ROLE_HOST).2
      = (1, 1, 0) ∧
    line_levels (extcon_hisi_pd_set_role
      (extcon_hisi_pd_set_role board usb_role.USB_ROLE_DEVICE).2 usb_role.USB_ROLE_HOST).2
      = (0, 1, 0) := by
  decide

/-- C2 (amended): with all three lines present and writes landing, after `set_role(R1)`
followed by `set_role(R2)` the levels of the Type-C VBUS line and of the switch line are
the same for every R1 and every starting state, and so is the level of the hub-power line
when R2 is NONE or DEVICE; when R2 is HOST the hub-power level is the one `set_role(R1)`
left. -/
theorem set_role_twice_line_levels (s t : Sys) (R1 R1' R2 : usb_role)
    (hctx : t.drv = s.drv) (hs : all_present s) (ht : all_present t)
    (ws : writes_land s) (wt : writes_land t) :
    (line_levels (extcon_hisi_pd_set_role (extcon_hisi_pd_set_role s R1).2 R2).2).2 =
      (line_levels (extcon_hisi_pd_set_role (extcon_hisi_pd_set_role t R1').2 R2).2).2 ∧
    (R2 ≠ usb_role.USB_ROLE_HOST →
      line_levels (extcon_hisi_pd_set_role (extcon_hisi_pd_set_role s R1).2 R2).2 =
        line_levels (extcon_hisi_pd_set_role (extcon_hisi_pd_set_role t R1').2 R2).2) ∧
    (R2 = usb_role.USB_ROLE_HOST →
      (line_levels (extcon_hisi_pd_set_role (extcon_hisi_pd_set_role s R1).2 R2).2).1 =
        (line_levels (extcon_hisi_pd_set_role s R1).2).1) := by
  rw [set_role_line_levels _ R2 (set_role_all_present s R1 hs) (set_role_writes_land s R1 ws),
    set_role_line_levels _ R2 (set_role_all_present t R1' ht) (set_role_writes_land t R1' wt)]
  simp only [set_role_drv, hctx]
  cases R2 <;> simp [line_levels, set_role_drv]

/-- C2 (amended), applied: the board, started once with NONE and once with DEVICE, then
switched to NONE. -/
theorem set_role_twice_line_levels_witness :
    (line_levels (extcon_hisi_pd_set_role
      (extcon_hisi_pd_set_role board usb_role.USB_ROLE_NONE).2 usb_role.USB_ROLE_NONE).2).2 =
      (line_levels (extcon_hisi_pd_set_role
        (extcon_hisi_pd_set_role board usb_role.USB_ROLE_DEVICE).2 usb_role.USB_ROLE_NONE).2).2 ∧
    (usb_role.USB_ROLE_NONE ≠ usb_role.USB_ROLE_HOST →
      line_levels (extcon_hisi_pd_set_role
        (extcon_hisi_pd_set_role board usb_role.USB_ROLE_NONE).2 usb_role.USB_ROLE_NONE).2 =
        line_levels (extcon_hisi_pd_set_role
          (extcon_hisi_pd_set_role board usb_role.USB_ROLE_DEVICE).2 usb_role.USB_ROLE_NONE).2) ∧
    (usb_role.USB_ROLE_NONE = usb_role.USB_ROLE_HOST →
      (line_levels (extcon_hisi_pd_set_role
        (extcon_hisi_pd_set_role board usb_role.USB_ROLE_NONE).2 usb_role.USB_ROLE_NONE).2).1 =
        (line_levels (extcon_hisi_pd_set_role board usb_role.USB_ROLE_NONE).2).1) :=
  set_role_twice_line_levels board board usb_role.USB_ROLE_NONE usb_role.USB_ROLE_DEVICE
    usb_role.USB_ROLE_NONE rfl (by decide) (by decide) (by decide) (by decide)

/-- C3 (as stated, refuted): on the board, after NONE (which turns hub power ON) a completed
`set_role(HOST)` leaves the hub-power line ON and the Type-C VBUS line at its active level:
two power paths are energized. -/
theorem host_leaves_hub_on_with_vbus_active :
    all_present (extcon_hisi_pd_set_role board usb_role.USB_ROLE_NONE).2 ∧
    writes_land (extcon_hisi_pd_set_role board usb_role.USB_ROLE_NONE).2 ∧
    hub_on (extcon_hisi_pd_set_role
      (extcon_hisi_pd_set_role board usb_role.USB_ROLE_NONE).2 usb_role.USB_ROLE_HOST).2 ∧
    typec_vbus_active (extcon_hisi_pd_set_role
      (extcon_hisi_pd_set_role board usb_role.USB_ROLE_NONE).2 usb_role.USB_ROLE_HOST).2 := by
  decide

/-- C3 (amended): with all three lines present and writes landing, after a completed
`set_role(R)` it is not the case that the hub-power line is ON while the Type-C VBUS line
is at its active level, for R = NONE, for R = DEVICE, and for R = HOST when the hub-power
line was not ON before (HOST leaves the hub-power line as it finds it). -/
theorem set_role_one_power_path (s : Sys) (role : usb_role) (hp : all_present s)
    (hw : writes_land s) (hh : role = usb_role.USB_ROLE_HOST → ¬ hub_on s) :
    ¬ (hub_on (extcon_hisi_pd_set_role s role).2 ∧
       typec_vbus_active (extcon_hisi_pd_set_role s role).2) := by
  have hl := set_role_line_levels s role hp hw
  unfold hub_on typec_vbus_active at *
  simp only [line_levels, set_role_drv] at hl
  simp only [set_role_drv]
  rintro ⟨h1, h2⟩
  cases role
  · simp only [Prod.mk.injEq] at hl
    rw [hl.2.1] at h2
    exact lnot_ne_self _ h2
  · simp only [Prod.mk.injEq] at hl
    exact hh rfl (hl.1 ▸ h1)
  · simp only [Prod.mk.injEq] at hl
    rw [hl.1] at h1
    exact absurd h1 (by decide)

/-- C3 (amended), applied: HOST requested on the board while hub power is off. -/
theorem set_role_one_power_path_witness :
    ¬ (hub_on (extcon_hisi_pd_set_role board usb_role.USB_ROLE_HOST).2 ∧
       typec_vbus_active (extcon_hisi_pd_set_role board usb_role.USB_ROLE_HOST).2) :=
  set_role_one_power_path board usb_role.USB_ROLE_HOST (by decide) (by decide) (by decide)

/-- C4 (as stated, refuted): on the board, `set_role(NONE)` called right after a completed
`set_role(NONE)` performs a hardware write all the same: `hub_power_ctrl` writes the
hub-power line without looking at its level. -/
theorem second_set_role_none_writes_hub_power :
    lines_distinct board ∧ writes_land board ∧
    writes (since (extcon_hisi_pd_set_role board usb_role.USB_ROLE_NONE).2.io
      (extcon_hisi_pd_set_role
        (extcon_hisi_pd_set_role board usb_role.USB_ROLE_NONE).2 usb_role.USB_ROLE_NONE).2.io)
      = [GpioOp.gpio_set_value 1 1] := by
  decide

/-- C4 (amended): for every role R and every context whose present lines are different
lines on which writes land, `set_role(R)` called right after a completed `set_role(R)`
returns 0, changes the level of no line, and writes neither the Type-C VBUS line nor the
switch line; its only hardware write is the one `hub_power_ctrl` always makes when the
hub-power line is present (ON for NONE, OFF for DEVICE, none for HOST). -/
theorem set_role_again_changes_nothing (s : Sys) (role : usb_role) (hd : lines_distinct s)
    (hw : writes_land s) :
    (extcon_hisi_pd_set_role (extcon_hisi_pd_set_role s role).2 role).1 = 0 ∧
    (extcon_hisi_pd_set_role (extcon_hisi_pd_set_role s role).2 role).2.level =
      (extcon_hisi_pd_set_role s role).2.level ∧
    writes (since (extcon_hisi_pd_set_role s role).2.io
      (extcon_hisi_pd_set_role (extcon_hisi_pd_set_role s role).2 role).2.io) =
      (if gpio_is_valid s s.drv.hub_vbus_gpio = true then
        (match role with
          | usb_role.USB_ROLE_NONE =>
            [GpioOp.gpio_set_value s.drv.hub_vbus_gpio HUB_VBUS_POWER_ON]
          | usb_role.USB_ROLE_HOST => []
          | usb_role.USB_ROLE_DEVICE =>
            [GpioOp.gpio_set_value s.drv.hub_vbus_gpio HUB_VBUS_POWER_OFF])
       else []) := by
  have h := set_role_of_settled _ role (set_role_settled s role hd hw)
  rw [set_role_valid, set_role_drv] at h
  exact ⟨set_role_ret _ role, h.1, h.2⟩

/-- C4 (amended), applied: HOST requested twice on the board. -/
theorem set_role_again_changes_nothing_witness :
    (extcon_hisi_pd_set_role
      (extcon_hisi_pd_set_role board usb_role.USB_ROLE_HOST).2 usb_role.USB_ROLE_HOST).1 = 0 ∧
    (extcon_hisi_pd_set_role
      (extcon_hisi_pd_set_role board usb_role.USB_ROLE_HOST).2 usb_role.USB_ROLE_HOST).2.level =
      (extcon_hisi_pd_set_role board usb_role.USB_ROLE_HOST).2.level ∧
    writes (since (extcon_hisi_pd_set_role board usb_role.USB_ROLE_HOST).2.io
      (extcon_hisi_pd_set_role
        (extcon_hisi_pd_set_role board usb_role.USB_ROLE_HOST).2 usb_role.USB_ROLE_HOST).2.io) =
      (if gpio_is_valid board board.drv.hub_vbus_gpio = true then
        (match usb_role.USB_ROLE_HOST with
          | usb_role.USB_ROLE_NONE =>
            [GpioOp.gpio_set_value board.drv.hub_vbus_gpio HUB_VBUS_POWER_ON]
          | usb_role.USB_ROLE_HOST => []
          | usb_role.USB_ROLE_DEVICE =>
            [GpioOp.gpio_set_value board.drv.hub_vbus_gpio HUB_VBUS_POWER_OFF])
       else []) :=
  set_role_again_changes_nothing board usb_role.USB_ROLE_HOST (by decide) (by decide)

/-- C5: `extcon_hisi_pd_set_role` returns 0 for every requested role and every state,
whichever lines of the context are absent and whether or not line writes fail. -/
theorem set_role_returns_zero (s : Sys) (role : usb_role) :
    (extcon_hisi_pd_set_role s role).1 = 0 := by
  cases role <;> rfl

/-- C6: after a role change made through the role-switch handle, `extcon_hisi_pd_get_role`
returns the requested role and leaves the whole state, the GPIO log included, as it was:
it reads and writes no line. -/
theorem get_role_after_set_role (s : Sys) (role : usb_role) :
    extcon_hisi_pd_get_role (usb_role_switch_set_role s role).2 =
      (role, (usb_role_switch_set_role s role).2) := by
  simp [extcon_hisi_pd_get_role, usb_role_switch_get_role, usb_role_switch_set_role,
    set_role_ret]

/-- C7 (as stated, refuted): on the board with active level 1 the probe succeeds and has
configured the Type-C VBUS line (line 2) as an output driven to 1, the active level, not
to its logical NOT 0: after the probe the line is at the active level. -/
theorem probe_leaves_typec_vbus_active :
    (hisi_hikey_usb_probe unprobed hikey960_node).1 = 0 ∧
    (hisi_hikey_usb_probe unprobed hikey960_node).2.drv.typec_vbus_gpio = 2 ∧
    (hisi_hikey_usb_probe unprobed hikey960_node).2.drv.typec_vbus_enable_val = 1 ∧
    since unprobed.io (hisi_hikey_usb_probe unprobed hikey960_node).2.io =
      [GpioOp.gpio_request 1, GpioOp.gpio_direction_output 1 1, GpioOp.gpio_request 2,
       GpioOp.gpio_direction_output 2 1, GpioOp.gpio_request 3] ∧
    (hisi_hikey_usb_probe unprobed hikey960_node).2.level 2 = 1 ∧
    typec_vbus_active (hisi_hikey_usb_probe unprobed hikey960_node).2 := by
  decide

/-- C7 (amended): for every configuration on which the probe reaches the configuration of
the Type-C VBUS line (hub-power line claimed and configured, Type-C VBUS line claimed,
polarity read), the line is configured as an output driven to the active level, i.e. the
normalised configured polarity (1 if the configured 32-bit value is non-zero, else 0), right
after it was claimed; that level is the stored active level; and when configuring the line
does not fail, in particular whenever the probe returns 0, the Type-C VBUS line is at the
active level after the probe. -/
theorem probe_configures_typec_vbus_at_active_level (s : Sys) (root : device_node)
    (hk : s.kzalloc_ok = true)
    (hv : gpio_is_valid s root.hub_vdd33_en_gpio = true)
    (hc : root.hub_vdd33_en_gpio ∉ s.requested)
    (hr : s.request_err root.hub_vdd33_en_gpio = 0)
    (ho : s.output_err root.hub_vdd33_en_gpio = 0)
    (tv : gpio_is_valid s root.typec_gpios = true)
    (tn : root.typec_gpios ≠ root.hub_vdd33_en_gpio)
    (tc : root.typec_gpios ∉ s.requested)
    (tr : s.request_err root.typec_gpios = 0)
    (te : root.typc_vbus_enable_val_ret = 0) :
    (since s.io (hisi_hikey_usb_probe s root).2.io).take 4 =
      [GpioOp.gpio_request root.hub_vdd33_en_gpio,
       GpioOp.gpio_direction_output root.hub_vdd33_en_gpio HUB_VBUS_POWER_ON,
       GpioOp.gpio_request root.typec_gpios,
       GpioOp.gpio_direction_output root.typec_gpios
         (if root.typc_vbus_enable_val % 2 ^ 32 = 0 then 0 else 1)] ∧
    (hisi_hikey_usb_probe s root).2.drv.typec_vbus_enable_val =
      (if root.typc_vbus_enable_val % 2 ^ 32 = 0 then 0 else 1) ∧
    (s.output_err root.typec_gpios = 0 →
      (hisi_hikey_usb_probe s root).2.level root.typec_gpios =
        (if root.typc_vbus_enable_val % 2 ^ 32 = 0 then 0 else 1)) ∧
    ((hisi_hikey_usb_probe s root).1 = 0 →
      (hisi_hikey_usb_probe s root).2.level root.typec_gpios =
        (if root.typc_vbus_enable_val % 2 ^ 32 = 0 then 0 else 1)) := by
  have hn : 0 < s.ARCH_NR_GPIOS := by
    simp only [gpio_is_valid, Bool.and_eq_true, decide_eq_true_eq] at hv
    omega
  have hd : (hisi_hikey_usb_probe s root).1 = 0 →
      (hisi_hikey_usb_probe s root).2.level root.typec_gpios =
        (if root.typc_vbus_enable_val % 2 ^ 32 = 0 then 0 else 1) :=
    fun h0 => (probe_zero s root hn h0).2.1.trans (normalised _)
  refine ⟨?_, ?_, ?_, hd⟩
  all_goals rw [probe_reaches_typec_enable s root hk hv hc hr ho tv tn tc tr]
  all_goals obtain ⟨e1, e2, post, e3⟩ := probe_typec_enable_reached (at_typec_enable s root) root te
  · rw [e3, ← normalised]
    simp [since, at_typec_enable]
  · exact e1.trans (normalised _)
  · exact fun hz => (e2 hz).trans (normalised _)

/-- C7 (amended), applied: the probe of the unattached board. -/
theorem probe_configures_typec_vbus_at_active_level_witness :
    (since unprobed.io (hisi_hikey_usb_probe unprobed hikey960_node).2.io).take 4 =
      [GpioOp.gpio_request hikey960_node.hub_vdd33_en_gpio,
       GpioOp.gpio_direction_output hikey960_node.hub_vdd33_en_gpio HUB_VBUS_POWER_ON,
       GpioOp.gpio_request hikey960_node.typec_gpios,
       GpioOp.gpio_direction_output hikey960_node.typec_gpios
         (if hikey960_node.typc_vbus_enable_val % 2 ^ 32 = 0 then 0 else 1)] ∧
    (hisi_hikey_usb_probe unprobed hikey960_node).2.drv.typec_vbus_enable_val =
      (if hikey960_node.typc_vbus_enable_val % 2 ^ 32 = 0 then 0 else 1) ∧
    (unprobed.output_err hikey960_node.typec_gpios = 0 →
      (hisi_hikey_usb_probe unprobed hikey960_node).2.level hikey960_node.typec_gpios =
        (if hikey960_node.typc_vbus_enable_val % 2 ^ 32 = 0 then 0 else 1)) ∧
    ((hisi_hikey_usb_probe unprobed hikey960_node).1 = 0 →
      (hisi_hikey_usb_probe unprobed hikey960_node).2.level hikey960_node.typec_gpios =
        (if hikey960_node.typc_vbus_enable_val % 2 ^ 32 = 0 then 0 else 1)) :=
  probe_configures_typec_vbus_at_active_level unprobed hikey960_node (by decide) (by decide)
    (by decide) (by decide) (by decide) (by decide) (by decide) (by decide) (by decide)
    (by decide)

/-- C8 (the code at the failing inputs): on the `hisilicon,hikey960_usb` variant the probe
returns 0 although a step failed, in three ways: the switch line does not resolve; the
cable sink cannot be allocated; the role switch cannot be registered. Each time the lines
claimed in steps 1-2 have been released and no role switch is registered. -/
theorem probe_returns_zero_after_failed_step :
    ((hisi_hikey_usb_probe unprobed node_without_otg_gpio).1 = 0 ∧
      (hisi_hikey_usb_probe unprobed node_without_otg_gpio).2.sw_registered = false ∧
      since unprobed.io (hisi_hikey_usb_probe unprobed node_without_otg_gpio).2.io =
        [GpioOp.gpio_request 1, GpioOp.gpio_direction_output 1 1, GpioOp.gpio_request 2,
         GpioOp.gpio_direction_output 2 1, GpioOp.gpio_free 2, GpioOp.gpio_free 1]) ∧
    ((hisi_hikey_usb_probe no_cable_sink hikey960_node).1 = 0 ∧
      (hisi_hikey_usb_probe no_cable_sink hikey960_node).2.sw_registered = false ∧
      since no_cable_sink.io (hisi_hikey_usb_probe no_cable_sink hikey960_node).2.io =
        [GpioOp.gpio_request 1, GpioOp.gpio_direction_output 1 1, GpioOp.gpio_request 2,
         GpioOp.gpio_direction_output 2 1, GpioOp.gpio_request 3, GpioOp.gpio_free 2,
         GpioOp.gpio_free 1]) ∧
    ((hisi_hikey_usb_probe no_role_switch hikey960_node).1 = 0 ∧
      (hisi_hikey_usb_probe no_role_switch hikey960_node).2.sw_registered = false ∧
      since no_role_switch.io (hisi_hikey_usb_probe no_role_switch hikey960_node).2.io =
        [GpioOp.gpio_request 1, GpioOp.gpio_direction_output 1 1, GpioOp.gpio_request 2,
         GpioOp.gpio_direction_output 2 1, GpioOp.gpio_request 3, GpioOp.gpio_free 2,
         GpioOp.gpio_free 1]) := by
  decide

/-- C9 (the code at the failing input): on the `hisilicon,hikey960_usb` variant, when the
cable sink cannot be allocated after all three lines were claimed, the probe releases the
Type-C VBUS line (2) and the hub-power line (1) once each but never the switch line (3),
which stays claimed after the failed probe; the same happens when the role switch cannot
be registered. -/
theorem probe_failure_leaves_switch_line_claimed :
    (hisi_hikey_usb_probe no_cable_sink hikey960_node).2.sw_registered = false ∧
    (hisi_hikey_usb_probe no_cable_sink hikey960_node).2.requested = [3] ∧
    releases (since no_cable_sink.io
      (hisi_hikey_usb_probe no_cable_sink hikey960_node).2.io) 3 = 0 ∧
    releases (since no_cable_sink.io
      (hisi_hikey_usb_probe no_cable_sink hikey960_node).2.io) 2 = 1 ∧
    releases (since no_cable_sink.io
      (hisi_hikey_usb_probe no_cable_sink hikey960_node).2.io) 1 = 1 ∧
    (hisi_hikey_usb_probe no_role_switch hikey960_node).2.sw_registered = false ∧
    (hisi_hikey_usb_probe no_role_switch hikey960_node).2.requested = [3] ∧
    releases (since no_role_switch.io
      (hisi_hikey_usb_probe no_role_switch hikey960_node).2.io) 3 = 0 := by
  decide

/-- C10: when the Type-C VBUS line of the configuration does not resolve to a real line,
while the hub-power line is a real line that can be claimed and configured, the probe
returns the lookup result, which is an error (not 0); the hub-power line claimed in step 1
is released, nothing else was claimed, and the claimed lines are those from before the
probe. -/
theorem probe_without_typec_vbus_line (s : Sys) (root : device_node)
    (hk : s.kzalloc_ok = true)
    (hv : gpio_is_valid s root.hub_vdd33_en_gpio = true)
    (hc : root.hub_vdd33_en_gpio ∉ s.requested)
    (hr : s.request_err root.hub_vdd33_en_gpio = 0)
    (ho : s.output_err root.hub_vdd33_en_gpio = 0)
    (ht : gpio_is_valid s root.typec_gpios = false) :
    (hisi_hikey_usb_probe s root).1 = root.typec_gpios ∧
    (hisi_hikey_usb_probe s root).1 ≠ 0 ∧
    (hisi_hikey_usb_probe s root).2.requested = s.requested ∧
    since s.io (hisi_hikey_usb_probe s root).2.io =
      [GpioOp.gpio_request root.hub_vdd33_en_gpio,
       GpioOp.gpio_direction_output root.hub_vdd33_en_gpio HUB_VBUS_POWER_ON,
       GpioOp.gpio_free root.hub_vdd33_en_gpio] := by
  have hne : root.typec_gpios ≠ 0 := by
    intro e
    simp only [gpio_is_valid, e] at hv ht
    simp at hv ht
    omega
  simp only [gpio_is_valid] at hv ht
  simp [hisi_hikey_usb_probe, probe_typec_vbus, free_gpio1, gpio_request,
    gpio_direction_output, gpio_free, gpio_is_valid, since, hk, hv, hc, hr, ho, ht, hne]

/-- C10, applied: the unattached board with a node that lacks the Type-C VBUS line. -/
theorem probe_without_typec_vbus_line_witness :
    (hisi_hikey_usb_probe unprobed node_without_typec_gpio).1 =
      node_without_typec_gpio.typec_gpios ∧
    (hisi_hikey_usb_probe unprobed node_without_typec_gpio).1 ≠ 0 ∧
    (hisi_hikey_usb_probe unprobed node_without_typec_gpio).2.requested = unprobed.requested ∧
    since unprobed.io (hisi_hikey_usb_probe unprobed node_without_typec_gpio).2.io =
      [GpioOp.gpio_request node_without_typec_gpio.hub_vdd33_en_gpio,
       GpioOp.gpio_direction_output node_without_typec_gpio.hub_vdd33_en_gpio
         HUB_VBUS_POWER_ON,
       GpioOp.gpio_free node_without_typec_gpio.hub_vdd33_en_gpio] :=
  probe_without_typec_vbus_line unprobed node_without_typec_gpio (by decide) (by decide)
    (by decide) (by decide) (by decide) (by decide)

/-- C11: on the `hisilicon,hikey960_usb` variant, when steps 1-2 of the probe succeeded and
step 3 fails (the switch line does not resolve to a real line, or claiming it fails because
it is already claimed or the line driver refuses), the rollback releases the Type-C VBUS
line and then the hub-power line, each once, and no other line; the claimed lines are those
from before the probe. -/
theorem probe_switch_step_failure_rollback (s : Sys) (root : device_node)
    (hk : s.kzalloc_ok = true)
    (hv : gpio_is_valid s root.hub_vdd33_en_gpio = true)
    (hc : root.hub_vdd33_en_gpio ∉ s.requested)
    (hr : s.request_err root.hub_vdd33_en_gpio = 0)
    (ho : s.output_err root.hub_vdd33_en_gpio = 0)
    (tv : gpio_is_valid s root.typec_gpios = true)
    (tn : root.typec_gpios ≠ root.hub_vdd33_en_gpio)
    (tc : root.typec_gpios ∉ s.requested)
    (tr : s.request_err root.typec_gpios = 0)
    (te : root.typc_vbus_enable_val_ret = 0)
    (tw : s.output_err root.typec_gpios = 0)
    (hw : root.hikey960_usb = true)
    (hf : gpio_is_valid s root.otg_gpio = false ∨
      root.otg_gpio ∈ root.typec_gpios :: root.hub_vdd33_en_gpio :: s.requested ∨
      s.request_err root.otg_gpio ≠ 0) :
    frees (since s.io (hisi_hikey_usb_probe s root).2.io) =
      [root.typec_gpios, root.hub_vdd33_en_gpio] ∧
    since s.io (hisi_hikey_usb_probe s root).2.io =
      [GpioOp.gpio_request root.hub_vdd33_en_gpio,
       GpioOp.gpio_direction_output root.hub_vdd33_en_gpio HUB_VBUS_POWER_ON,
       GpioOp.gpio_request root.typec_gpios,
       GpioOp.gpio_direction_output root.typec_gpios
         (lnot (lnot (u32_as_int root.typc_vbus_enable_val)))] ++
      (if gpio_is_valid s root.otg_gpio = true then [GpioOp.gpio_request root.otg_gpio]
       else []) ++
      [GpioOp.gpio_free root.typec_gpios, GpioOp.gpio_free root.hub_vdd33_en_gpio] ∧
    (hisi_hikey_usb_probe s root).2.requested = s.requested := by
  rw [probe_reaches_typec_enable s root hk hv hc hr ho tv tn tc tr]
  simp only [gpio_is_valid, Bool.and_eq_true, decide_eq_true_eq] at hv tv
  by_cases ov : gpio_is_valid s root.otg_gpio = true
  · have hf2 : root.otg_gpio ∈ root.typec_gpios :: root.hub_vdd33_en_gpio :: s.requested ∨
        s.request_err root.otg_gpio ≠ 0 := by
      rcases hf with h | h | h
      · rw [ov] at h; exact absurd h (by decide)
      · exact Or.inl h
      · exact Or.inr h
    simp only [gpio_is_valid, Bool.and_eq_true, decide_eq_true_eq] at ov
    rcases hf2 with h | h
    · simp [probe_typec_enable, probe_otg_switch, free_gpio2, free_gpio1, gpio_request,
        gpio_direction_output, gpio_free, gpio_is_valid, at_typec_enable, since, frees,
        te, tw, hw, hv, tv, ov, h, tn, tn.symm, EBUSY]
    · by_cases hm : root.otg_gpio ∈ root.typec_gpios :: root.hub_vdd33_en_gpio :: s.requested
      · simp [probe_typec_enable, probe_otg_switch, free_gpio2, free_gpio1, gpio_request,
          gpio_direction_output, gpio_free, gpio_is_valid, at_typec_enable, since, frees,
          te, tw, hw, hv, tv, ov, hm, tn, tn.symm, EBUSY]
      · simp [probe_typec_enable, probe_otg_switch, free_gpio2, free_gpio1, gpio_request,
          gpio_direction_output, gpio_free, gpio_is_valid, at_typec_enable, since, frees,
          te, tw, hw, hv, tv, ov, hm, h, tn, tn.symm, EBUSY]
  · have ov2 := ov
    simp only [gpio_is_valid, Bool.and_eq_true, decide_eq_true_eq] at ov2
    have ov3 : root.otg_gpio < 0 ∨ s.ARCH_NR_GPIOS ≤ root.otg_gpio := by omega
    simp [probe_typec_enable, probe_otg_switch, free_gpio2, free_gpio1, gpio_request,
      gpio_direction_output, gpio_free, gpio_is_valid, at_typec_enable, since, frees,
      te, tw, hw, hv, tv, ov3, ov, tn, tn.symm]
    omega

/-- C11, applied: the board whose switch line cannot be claimed. -/
theorem probe_switch_step_failure_rollback_witness :
    frees (since switch_line_unclaimable.io
        (hisi_hikey_usb_probe switch_line_unclaimable hikey960_node).2.io) =
      [hikey960_node.typec_gpios, hikey960_node.hub_vdd33_en_gpio] ∧
    since switch_line_unclaimable.io
        (hisi_hikey_usb_probe switch_line_unclaimable hikey960_node).2.io =
      [GpioOp.gpio_request hikey960_node.hub_vdd33_en_gpio,
       GpioOp.gpio_direction_output hikey960_node.hub_vdd33_en_gpio HUB_VBUS_POWER_ON,
       GpioOp.gpio_request hikey960_node.typec_gpios,
       GpioOp.gpio_direction_output hikey960_node.typec_gpios
         (lnot (lnot (u32_as_int hikey960_node.typc_vbus_enable_val)))] ++
      (if gpio_is_valid switch_line_unclaimable hikey960_node.otg_gpio = true
       then [GpioOp.gpio_request hikey960_node.otg_gpio] else []) ++
      [GpioOp.gpio_free hikey960_node.typec_gpios,
       GpioOp.gpio_free hikey960_node.hub_vdd33_en_gpio] ∧
    (hisi_hikey_usb_probe switch_line_unclaimable hikey960_node).2.requested =
      switch_line_unclaimable.requested :=
  probe_switch_step_failure_rollback switch_line_unclaimable hikey960_node (by decide)
    (by decide) (by decide) (by decide) (by decide) (by decide) (by decide) (by decide)
    (by decide) (by decide) (by decide) (by decide) (by decide)

/-- C12: in every context whose switch line is absent, from every starting state,
`set_role(DEVICE)` returns 0; makes its five steps in order (hub power OFF, Type-C VBUS to
the active level, switch to TYPEC, USB_HOST=false, USB=true); addresses no GPIO operation
to the absent switch line, every operation going to a present line that is the hub-power
or the Type-C VBUS line; writes OFF to a present hub-power line, which then is OFF unless
it is the same line as the Type-C VBUS line; leaves a present Type-C VBUS line on which
writes land at the active level; and leaves the cable sink at USB_HOST=false, USB=true. -/
theorem set_role_device_without_switch (s : Sys)
    (h : gpio_is_valid s s.drv.otg_switch_gpio = false) :
    (extcon_hisi_pd_set_role s usb_role.USB_ROLE_DEVICE).1 = 0 ∧
    since s.calls (extcon_hisi_pd_set_role s usb_role.USB_ROLE_DEVICE).2.calls =
      [Call.hub_power_ctrl HUB_VBUS_POWER_OFF,
       Call.usb_typec_power_ctrl s.drv.typec_vbus_enable_val,
       Call.usb_switch_ctrl USB_SWITCH_TO_TYPEC,
       Call.extcon_set_state_sync Cable.EXTCON_USB_HOST false,
       Call.extcon_set_state_sync Cable.EXTCON_USB true] ∧
    (∀ op ∈ since s.io (extcon_hisi_pd_set_role s usb_role.USB_ROLE_DEVICE).2.io,
      op.line ≠ s.drv.otg_switch_gpio ∧ gpio_is_valid s op.line = true ∧
      (op.line = s.drv.hub_vbus_gpio ∨ op.line = s.drv.typec_vbus_gpio)) ∧
    (gpio_is_valid s s.drv.hub_vbus_gpio = true →
      GpioOp.gpio_set_value s.drv.hub_vbus_gpio HUB_VBUS_POWER_OFF ∈
        since s.io (extcon_hisi_pd_set_role s usb_role.USB_ROLE_DEVICE).2.io ∧
      (s.drv.hub_vbus_gpio ≠ s.drv.typec_vbus_gpio →
        (extcon_hisi_pd_set_role s usb_role.USB_ROLE_DEVICE).2.level s.drv.hub_vbus_gpio =
          HUB_VBUS_POWER_OFF)) ∧
    (gpio_is_valid s s.drv.typec_vbus_gpio = true →
      s.output_err s.drv.typec_vbus_gpio = 0 →
      (extcon_hisi_pd_set_role s usb_role.USB_ROLE_DEVICE).2.level s.drv.typec_vbus_gpio =
        s.drv.typec_vbus_enable_val) ∧
    (extcon_hisi_pd_set_role s usb_role.USB_ROLE_DEVICE).2.cable Cable.EXTCON_USB_HOST = false ∧
    (extcon_hisi_pd_set_role s usb_role.USB_ROLE_DEVICE).2.cable Cable.EXTCON_USB = true := by
  refine ⟨rfl, ?_, ?_, ?_, ?_, ?_, ?_⟩
  · rw [set_role_calls_device]; simp [since]
  · intro op hop
    have hne : ∀ l, gpio_is_valid s l = true → l ≠ s.drv.otg_switch_gpio := by
      intro l hl e
      rw [e, h] at hl
      exact absurd hl (by decide)
    by_cases h1 : gpio_is_valid s s.drv.hub_vbus_gpio = true <;>
    by_cases h2 : gpio_is_valid s s.drv.typec_vbus_gpio = true <;>
    simp [extcon_hisi_pd_set_role, extcon_set_state_sync, hub_power_ctrl_drv,
      usb_switch_ctrl_drv, usb_typec_power_ctrl_drv, hub_power_ctrl_valid,
      usb_switch_ctrl_valid, usb_typec_power_ctrl_valid, hub_power_ctrl_io,
      usb_switch_ctrl_io, usb_typec_power_ctrl_io, since, h, h1, h2] at hop
    all_goals
      have key : ∀ l, gpio_is_valid s l = true →
          (l = s.drv.hub_vbus_gpio ∨ l = s.drv.typec_vbus_gpio) →
          l ≠ s.drv.otg_switch_gpio ∧ gpio_is_valid s l = true ∧
          (l = s.drv.hub_vbus_gpio ∨ l = s.drv.typec_vbus_gpio) :=
        fun l hl ho => ⟨hne l hl, hl, ho⟩
    · rcases hop with rfl | rfl | hop
      · exact key _ h1 (Or.inl rfl)
      · exact key _ h2 (Or.inr rfl)
      · obtain ⟨_, rfl⟩ := hop
        exact key _ h2 (Or.inr rfl)
    · subst hop
      exact key _ h1 (Or.inl rfl)
    · rcases hop with rfl | hop
      · exact key _ h2 (Or.inr rfl)
      · obtain ⟨_, rfl⟩ := hop
        exact key _ h2 (Or.inr rfl)
  · intro h1
    refine ⟨?_, ?_⟩
    · simp [extcon_hisi_pd_set_role, extcon_set_state_sync, hub_power_ctrl_drv,
        usb_switch_ctrl_drv, usb_typec_power_ctrl_drv, hub_power_ctrl_valid,
        usb_switch_ctrl_valid, usb_typec_power_ctrl_valid, hub_power_ctrl_io,
        usb_switch_ctrl_io, usb_typec_power_ctrl_io, since, h, h1]
    · intro hd
      by_cases h2 : gpio_is_valid s s.drv.typec_vbus_gpio = true <;>
      simp [extcon_hisi_pd_set_role, extcon_set_state_sync, hub_power_ctrl_drv,
        usb_switch_ctrl_drv, usb_typec_power_ctrl_drv, hub_power_ctrl_valid,
        usb_switch_ctrl_valid, usb_typec_power_ctrl_valid, hub_power_ctrl_level,
        usb_switch_ctrl_level, usb_typec_power_ctrl_level, hub_power_ctrl_output_err,
        usb_typec_power_ctrl_output_err, Function.update_apply, h, h1, h2, hd]
      split_ifs <;> simp [Function.update_apply, hd]
  · intro h2 hw
    simp [extcon_hisi_pd_set_role, extcon_set_state_sync, hub_power_ctrl_drv,
      usb_switch_ctrl_drv, usb_typec_power_ctrl_drv, hub_power_ctrl_valid,
      usb_switch_ctrl_valid, usb_typec_power_ctrl_valid, hub_power_ctrl_level,
      usb_switch_ctrl_level, usb_typec_power_ctrl_level, hub_power_ctrl_output_err,
      usb_typec_power_ctrl_output_err, h, h2, hw]
  · simp [extcon_hisi_pd_set_role, extcon_set_state_sync, Function.update_apply]
  · simp [extcon_hisi_pd_set_role, extcon_set_state_sync, Function.update_apply]

/-- C12, applied: the board of a variant without a switch line, in role NONE. -/
theorem set_role_device_without_switch_witness :
    (extcon_hisi_pd_set_role board_without_switch usb_role.USB_ROLE_DEVICE).1 = 0 ∧
    since board_without_switch.calls
        (extcon_hisi_pd_set_role board_without_switch usb_role.USB_ROLE_DEVICE).2.calls =
      [Call.hub_power_ctrl HUB_VBUS_POWER_OFF,
       Call.usb_typec_power_ctrl board_without_switch.drv.typec_vbus_enable_val,
       Call.usb_switch_ctrl USB_SWITCH_TO_TYPEC,
       Call.extcon_set_state_sync Cable.EXTCON_USB_HOST false,
       Call.extcon_set_state_sync Cable.EXTCON_USB true] ∧
    (∀ op ∈ since board_without_switch.io
        (extcon_hisi_pd_set_role board_without_switch usb_role.USB_ROLE_DEVICE).2.io,
      op.line ≠ board_without_switch.drv.otg_switch_gpio ∧
      gpio_is_valid board_without_switch op.line = true ∧
      (op.line = board_without_switch.drv.hub_vbus_gpio ∨
        op.line = board_without_switch.drv.typec_vbus_gpio)) ∧
    (gpio_is_valid board_without_switch board_without_switch.drv.hub_vbus_gpio = true →
      GpioOp.gpio_set_value board_without_switch.drv.hub_vbus_gpio HUB_VBUS_POWER_OFF ∈
        since board_without_switch.io
          (extcon_hisi_pd_set_role board_without_switch usb_role.USB_ROLE_DEVICE).2.io ∧
      (board_without_switch.drv.hub_vbus_gpio ≠ board_without_switch.drv.typec_vbus_gpio →
        (extcon_hisi_pd_set_role board_without_switch usb_role.USB_ROLE_DEVICE).2.level
          board_without_switch.drv.hub_vbus_gpio = HUB_VBUS_POWER_OFF)) ∧
    (gpio_is_valid board_without_switch board_without_switch.drv.typec_vbus_gpio = true →
      board_without_switch.output_err board_without_switch.drv.typec_vbus_gpio = 0 →
      (extcon_hisi_pd_set_role board_without_switch usb_role.USB_ROLE_DEVICE).2.level
        board_without_switch.drv.typec_vbus_gpio =
        board_without_switch.drv.typec_vbus_enable_val) ∧
    (extcon_hisi_pd_set_role board_without_switch usb_role.USB_ROLE_DEVICE).2.cable
      Cable.EXTCON_USB_HOST = false ∧
    (extcon_hisi_pd_set_role board_without_switch usb_role.USB_ROLE_DEVICE).2.cable
      Cable.EXTCON_USB = true :=
  set_role_device_without_switch board_without_switch (by decide)

/-- C13: `hisi_hikey_usb_remove` returns 0 and releases, in the order switch, Type-C VBUS,
hub-power, exactly the lines that are present in the context, each once, and marks each as
absent (`INVALID_GPIO_VALUE`), so that the lines claimed at the line driver are those from
before without the released ones; the role-switch handle is unregistered in the state in which
these releases have happened; afterwards no line of the context is present, and a second
`hisi_hikey_usb_remove` releases no line. -/
theorem remove_releases_present_lines (s : Sys) :
    (hisi_hikey_usb_remove s).1 = 0 ∧
    since s.io (hisi_hikey_usb_remove s).2.io =
      (if gpio_is_valid s s.drv.otg_switch_gpio = true
       then [GpioOp.gpio_free s.drv.otg_switch_gpio] else []) ++
      (if gpio_is_valid s s.drv.typec_vbus_gpio = true
       then [GpioOp.gpio_free s.drv.typec_vbus_gpio] else []) ++
      (if gpio_is_valid s s.drv.hub_vbus_gpio = true
       then [GpioOp.gpio_free s.drv.hub_vbus_gpio] else []) ∧
    (hisi_hikey_usb_remove s).2.requested =
      List.foldl List.erase s.requested
        ((if gpio_is_valid s s.drv.otg_switch_gpio = true
          then [s.drv.otg_switch_gpio] else []) ++
         (if gpio_is_valid s s.drv.typec_vbus_gpio = true
          then [s.drv.typec_vbus_gpio] else []) ++
         (if gpio_is_valid s s.drv.hub_vbus_gpio = true
          then [s.drv.hub_vbus_gpio] else [])) ∧
    (gpio_is_valid s s.drv.otg_switch_gpio = true →
      (hisi_hikey_usb_remove s).2.drv.otg_switch_gpio = INVALID_GPIO_VALUE) ∧
    (gpio_is_valid s s.drv.typec_vbus_gpio = true →
      (hisi_hikey_usb_remove s).2.drv.typec_vbus_gpio = INVALID_GPIO_VALUE) ∧
    (gpio_is_valid s s.drv.hub_vbus_gpio = true →
      (hisi_hikey_usb_remove s).2.drv.hub_vbus_gpio = INVALID_GPIO_VALUE) ∧
    (∃ t : Sys, t.io = (hisi_hikey_usb_remove s).2.io ∧ t.sw_registered = s.sw_registered ∧
      t.drv.role_sw = s.drv.role_sw ∧
      hisi_hikey_usb_remove s = (0, usb_role_switch_unregister t t.drv.role_sw)) ∧
    (s.drv.role_sw = Ptr.VALID → (hisi_hikey_usb_remove s).2.sw_registered = false) ∧
    gpio_is_valid (hisi_hikey_usb_remove s).2
      (hisi_hikey_usb_remove s).2.drv.otg_switch_gpio = false ∧
    gpio_is_valid (hisi_hikey_usb_remove s).2
      (hisi_hikey_usb_remove s).2.drv.typec_vbus_gpio = false ∧
    gpio_is_valid (hisi_hikey_usb_remove s).2
      (hisi_hikey_usb_remove s).2.drv.hub_vbus_gpio = false ∧
    since (hisi_hikey_usb_remove s).2.io
      (hisi_hikey_usb_remove (hisi_hikey_usb_remove s).2).2.io = [] := by
  obtain ⟨r0, rio, rnr, r3, r2, r1, rsw, rreg, rreq⟩ := remove_unfold s
  have inv : ∀ t : Sys, gpio_is_valid t INVALID_GPIO_VALUE = false := by
    intro t; simp [gpio_is_valid, INVALID_GPIO_VALUE]
  have v3 : gpio_is_valid (hisi_hikey_usb_remove s).2
      (hisi_hikey_usb_remove s).2.drv.otg_switch_gpio = false := by
    rw [gpio_is_valid_congr s _ rnr, r3]
    split_ifs with h
    · exact inv s
    · simpa using h
  have v2 : gpio_is_valid (hisi_hikey_usb_remove s).2
      (hisi_hikey_usb_remove s).2.drv.typec_vbus_gpio = false := by
    rw [gpio_is_valid_congr s _ rnr, r2]
    split_ifs with h
    · exact inv s
    · simpa using h
  have v1 : gpio_is_valid (hisi_hikey_usb_remove s).2
      (hisi_hikey_usb_remove s).2.drv.hub_vbus_gpio = false := by
    rw [gpio_is_valid_congr s _ rnr, r1]
    split_ifs with h
    · exact inv s
    · simpa using h
  refine ⟨r0, ?_, rreq, ?_, ?_, ?_, ?_, ?_, v3, v2, v1, ?_⟩
  · rw [rio]; simp [since]
  · intro h; rw [r3, if_pos h]
  · intro h; rw [r2, if_pos h]
  · intro h; rw [r1, if_pos h]
  · refine ⟨_, ?_, ?_, ?_, rfl⟩
    · rw [rio]
      by_cases h1 : gpio_is_valid s s.drv.hub_vbus_gpio = true <;>
      by_cases h2 : gpio_is_valid s s.drv.typec_vbus_gpio = true <;>
      by_cases h3 : gpio_is_valid s s.drv.otg_switch_gpio = true <;>
      · simp only [gpio_is_valid] at h1 h2 h3
        simp [gpio_free, gpio_is_valid, h1, h2, h3]
    · by_cases h1 : gpio_is_valid s s.drv.hub_vbus_gpio = true <;>
      by_cases h2 : gpio_is_valid s s.drv.typec_vbus_gpio = true <;>
      by_cases h3 : gpio_is_valid s s.drv.otg_switch_gpio = true <;>
      · simp only [gpio_is_valid] at h1 h2 h3
        simp [gpio_free, gpio_is_valid, h1, h2, h3]
    · by_cases h1 : gpio_is_valid s s.drv.hub_vbus_gpio = true <;>
      by_cases h2 : gpio_is_valid s s.drv.typec_vbus_gpio = true <;>
      by_cases h3 : gpio_is_valid s s.drv.otg_switch_gpio = true <;>
      · simp only [gpio_is_valid] at h1 h2 h3
        simp [gpio_free, gpio_is_valid, h1, h2, h3]
  · intro h; rw [rreg, if_pos h]
  · rw [(remove_unfold (hisi_hikey_usb_remove s).2).2.1, v1, v2, v3]
    simp [since]

/-- C14 (as stated, refuted): on the board in role NONE the hub-power line (line 1) is
already ON, and `hub_power_ctrl` asked for ON writes the line all the same. -/
theorem hub_power_ctrl_writes_level_already_there :
    (extcon_hisi_pd_set_role board usb_role.USB_ROLE_NONE).2.level
      (extcon_hisi_pd_set_role board usb_role.USB_ROLE_NONE).2.drv.hub_vbus_gpio =
      HUB_VBUS_POWER_ON ∧
    writes (since (extcon_hisi_pd_set_role board usb_role.USB_ROLE_NONE).2.io
      (hub_power_ctrl (extcon_hisi_pd_set_role board usb_role.USB_ROLE_NONE).2
        HUB_VBUS_POWER_ON).io) = [GpioOp.gpio_set_value 1 1] := by
  decide

/-- C14 (amended): for every context and level, `hub_power_ctrl` does nothing to the lines
when the hub-power line is absent; when the line is present it writes the requested level
without reading the line, whether or not the line already has that level, and afterwards
the line has the requested level; no other line changes, and when the line already had
the requested level no line level changes. -/
theorem hub_power_ctrl_writes_when_present (s : Sys) (value : Int) :
    (gpio_is_valid s s.drv.hub_vbus_gpio = false →
      hub_power_ctrl s value = { s with calls := s.calls ++ [Call.hub_power_ctrl value] }) ∧
    (gpio_is_valid s s.drv.hub_vbus_gpio = true →
      since s.io (hub_power_ctrl s value).io =
        [GpioOp.gpio_set_value s.drv.hub_vbus_gpio value] ∧
      (hub_power_ctrl s value).level s.drv.hub_vbus_gpio = value) ∧
    (∀ line, line ≠ s.drv.hub_vbus_gpio → (hub_power_ctrl s value).level line = s.level line) ∧
    (s.level s.drv.hub_vbus_gpio = value → (hub_power_ctrl s value).level = s.level) := by
  refine ⟨?_, ?_, ?_, ?_⟩
  · intro h
    unfold hub_power_ctrl
    simp only [gpio_is_valid] at h ⊢
    simp [h]
  · intro h
    rw [hub_power_ctrl_io, hub_power_ctrl_level]
    simp [since, h]
  · intro line hl
    rw [hub_power_ctrl_level]
    split_ifs <;> simp [Function.update_apply, hl]
  · intro h
    rw [hub_power_ctrl_level]
    split_ifs
    · exact update_same h
    · rfl

/-- C15 (as stated, refuted): on a board whose line driver fails to drive the Type-C VBUS
line (line 2, at level 0), `usb_typec_power_ctrl` asked for 1 reads the line and issues its
one write, but ignores the result of the write and leaves the present line at 0, not at the
requested 1; likewise `usb_switch_ctrl` asked for HUB (1) on a board whose switch line
(line 3) cannot be driven leaves that line at 0. -/
theorem typec_power_ctrl_failed_write_leaves_level :
    gpio_is_valid vbus_write_fails vbus_write_fails.drv.typec_vbus_gpio = true ∧
    vbus_write_fails.level vbus_write_fails.drv.typec_vbus_gpio = 0 ∧
    since vbus_write_fails.io (usb_typec_power_ctrl vbus_write_fails 1).io =
      [GpioOp.gpio_get_value 2, GpioOp.gpio_direction_output 2 1] ∧
    (usb_typec_power_ctrl vbus_write_fails 1).level vbus_write_fails.drv.typec_vbus_gpio = 0 ∧
    gpio_is_valid switch_write_fails switch_write_fails.drv.otg_switch_gpio = true ∧
    since switch_write_fails.io (usb_switch_ctrl switch_write_fails USB_SWITCH_TO_HUB).io =
      [GpioOp.gpio_get_value 3, GpioOp.gpio_direction_output 3 1] ∧
    (usb_switch_ctrl switch_write_fails USB_SWITCH_TO_HUB).level
      switch_write_fails.drv.otg_switch_gpio = 0 := by
  decide

/-- C15 (amended): `usb_typec_power_ctrl` and `usb_switch_ctrl` follow one pattern on their
line, for every context and requested value: if the line is absent nothing is read or
written and the state is unchanged (but for the record of the call); if the line has the
requested level it is read and not written; otherwise it is read and written once with the
requested value; no other line changes; and afterwards a present line has the requested
level when it already had it or when the write did not fail (the result of the write is
ignored, and a failed write leaves the line as it was). -/
theorem typec_and_switch_ctrl_pattern (s : Sys) (v : Int) :
    ((gpio_is_valid s s.drv.typec_vbus_gpio = false →
        usb_typec_power_ctrl s v =
          { s with calls := s.calls ++ [Call.usb_typec_power_ctrl v] }) ∧
      (gpio_is_valid s s.drv.typec_vbus_gpio = true → s.level s.drv.typec_vbus_gpio = v →
        since s.io (usb_typec_power_ctrl s v).io =
          [GpioOp.gpio_get_value s.drv.typec_vbus_gpio] ∧
        (usb_typec_power_ctrl s v).level = s.level) ∧
      (gpio_is_valid s s.drv.typec_vbus_gpio = true → s.level s.drv.typec_vbus_gpio ≠ v →
        since s.io (usb_typec_power_ctrl s v).io =
          [GpioOp.gpio_get_value s.drv.typec_vbus_gpio,
           GpioOp.gpio_direction_output s.drv.typec_vbus_gpio v]) ∧
      (∀ line, line ≠ s.drv.typec_vbus_gpio →
        (usb_typec_power_ctrl s v).level line = s.level line) ∧
      (gpio_is_valid s s.drv.typec_vbus_gpio = true →
        s.level s.drv.typec_vbus_gpio = v ∨ s.output_err s.drv.typec_vbus_gpio = 0 →
        (usb_typec_power_ctrl s v).level s.drv.typec_vbus_gpio = v)) ∧
    ((gpio_is_valid s s.drv.otg_switch_gpio = false →
        usb_switch_ctrl s v = { s with calls := s.calls ++ [Call.usb_switch_ctrl v] }) ∧
      (gpio_is_valid s s.drv.otg_switch_gpio = true → s.level s.drv.otg_switch_gpio = v →
        since s.io (usb_switch_ctrl s v).io =
          [GpioOp.gpio_get_value s.drv.otg_switch_gpio] ∧
        (usb_switch_ctrl s v).level = s.level) ∧
      (gpio_is_valid s s.drv.otg_switch_gpio = true → s.level s.drv.otg_switch_gpio ≠ v →
        since s.io (usb_switch_ctrl s v).io =
          [GpioOp.gpio_get_value s.drv.otg_switch_gpio,
           GpioOp.gpio_direction_output s.drv.otg_switch_gpio v]) ∧
      (∀ line, line ≠ s.drv.otg_switch_gpio →
        (usb_switch_ctrl s v).level line = s.level line) ∧
      (gpio_is_valid s s.drv.otg_switch_gpio = true →
        s.level s.drv.otg_switch_gpio = v ∨ s.output_err s.drv.otg_switch_gpio = 0 →
        (usb_switch_ctrl s v).level s.drv.otg_switch_gpio = v)) := by
  refine ⟨⟨?_, ?_, ?_, ?_, ?_⟩, ⟨?_, ?_, ?_, ?_, ?_⟩⟩
  · intro h
    unfold usb_typec_power_ctrl
    simp only [gpio_is_valid] at h ⊢
    simp [h]
  · intro h e
    rw [usb_typec_power_ctrl_io, usb_typec_power_ctrl_level]
    refine ⟨by simp [since, h, e], ?_⟩
    split_ifs
    · exact update_same e
    · rfl
  · intro h e
    rw [usb_typec_power_ctrl_io]
    simp [since, h, e]
  · intro line hl
    rw [usb_typec_power_ctrl_level]
    split_ifs <;> simp [Function.update_apply, hl]
  · intro h e
    rw [usb_typec_power_ctrl_level]
    rcases e with e | e
    · split_ifs <;> simp [e]
    · simp [h, e]
  · intro h
    unfold usb_switch_ctrl
    simp only [gpio_is_valid] at h ⊢
    simp [h]
  · intro h e
    rw [usb_switch_ctrl_io, usb_switch_ctrl_level]
    refine ⟨by simp [since, h, e], ?_⟩
    split_ifs
    · exact update_same e
    · rfl
  · intro h e
    rw [usb_switch_ctrl_io]
    simp [since, h, e]
  · intro line hl
    rw [usb_switch_ctrl_level]
    split_ifs <;> simp [Function.update_apply, hl]
  · intro h e
    rw [usb_switch_ctrl_level]
    rcases e with e | e
    · split_ifs <;> simp [e]
    · simp [h, e]

/-- C16: in every context with all three lines present and writes landing,
`set_role(DEVICE)` right after a completed `set_role(HOST)` performs exactly one hardware
write, hub power to OFF; the Type-C VBUS step and the switch step only read their line
(already at the active level, already at TYPEC); the calls end with the announcements
USB_HOST=false, USB=true. -/
theorem set_role_device_after_host (s : Sys) (hp : all_present s) (hw : writes_land s) :
    writes (since (extcon_hisi_pd_set_role s usb_role.USB_ROLE_HOST).2.io
      (extcon_hisi_pd_set_role (extcon_hisi_pd_set_role s usb_role.USB_ROLE_HOST).2
        usb_role.USB_ROLE_DEVICE).2.io) =
      [GpioOp.gpio_set_value s.drv.hub_vbus_gpio HUB_VBUS_POWER_OFF] ∧
    since (extcon_hisi_pd_set_role s usb_role.USB_ROLE_HOST).2.io
      (extcon_hisi_pd_set_role (extcon_hisi_pd_set_role s usb_role.USB_ROLE_HOST).2
        usb_role.USB_ROLE_DEVICE).2.io =
      [GpioOp.gpio_set_value s.drv.hub_vbus_gpio HUB_VBUS_POWER_OFF,
       GpioOp.gpio_get_value s.drv.typec_vbus_gpio,
       GpioOp.gpio_get_value s.drv.otg_switch_gpio] ∧
    since (extcon_hisi_pd_set_role s usb_role.USB_ROLE_HOST).2.calls
      (extcon_hisi_pd_set_role (extcon_hisi_pd_set_role s usb_role.USB_ROLE_HOST).2
        usb_role.USB_ROLE_DEVICE).2.calls =
      [Call.hub_power_ctrl HUB_VBUS_POWER_OFF,
       Call.usb_typec_power_ctrl s.drv.typec_vbus_enable_val,
       Call.usb_switch_ctrl USB_SWITCH_TO_TYPEC,
       Call.extcon_set_state_sync Cable.EXTCON_USB_HOST false,
       Call.extcon_set_state_sync Cable.EXTCON_USB true] := by
  have hl := set_role_line_levels s usb_role.USB_ROLE_HOST hp hw
  simp only [line_levels, set_role_drv, Prod.mk.injEq] at hl
  have hio := set_role_device_io _
    (set_role_all_present s usb_role.USB_ROLE_HOST hp)
    (by rw [set_role_drv]; exact hl.2.1) (by rw [set_role_drv]; exact hl.2.2)
  rw [set_role_drv] at hio
  refine ⟨?_, ?_, ?_⟩
  · rw [hio]; simp [since, writes, GpioOp.is_write]
  · rw [hio]; simp [since]
  · rw [set_role_calls_device, set_role_drv]; simp [since]

/-- C16, applied: the sequence NONE, HOST, DEVICE on the board (hub line 1, Type-C VBUS
line 2 active high, switch line 3). -/
theorem set_role_device_after_host_witness :
    writes (since (extcon_hisi_pd_set_role
        (extcon_hisi_pd_set_role board usb_role.USB_ROLE_NONE).2 usb_role.USB_ROLE_HOST).2.io
      (extcon_hisi_pd_set_role (extcon_hisi_pd_set_role
        (extcon_hisi_pd_set_role board usb_role.USB_ROLE_NONE).2 usb_role.USB_ROLE_HOST).2
        usb_role.USB_ROLE_DEVICE).2.io) =
      [GpioOp.gpio_set_value
        (extcon_hisi_pd_set_role board usb_role.USB_ROLE_NONE).2.drv.hub_vbus_gpio
        HUB_VBUS_POWER_OFF] ∧
    since (extcon_hisi_pd_set_role
        (extcon_hisi_pd_set_role board usb_role.USB_ROLE_NONE).2 usb_role.USB_ROLE_HOST).2.io
      (extcon_hisi_pd_set_role (extcon_hisi_pd_set_role
        (extcon_hisi_pd_set_role board usb_role.USB_ROLE_NONE).2 usb_role.USB_ROLE_HOST).2
        usb_role.USB_ROLE_DEVICE).2.io =
      [GpioOp.gpio_set_value
        (extcon_hisi_pd_set_role board usb_role.USB_ROLE_NONE).2.drv.hub_vbus_gpio
        HUB_VBUS_POWER_OFF,
       GpioOp.gpio_get_value
        (extcon_hisi_pd_set_role board usb_role.USB_ROLE_NONE).2.drv.typec_vbus_gpio,
       GpioOp.gpio_get_value
        (extcon_hisi_pd_set_role board usb_role.USB_ROLE_NONE).2.drv.otg_switch_gpio] ∧
    since (extcon_hisi_pd_set_role
        (extcon_hisi_pd_set_role board usb_role.USB_ROLE_NONE).2 usb_role.USB_ROLE_HOST).2.calls
      (extcon_hisi_pd_set_role (extcon_hisi_pd_set_role
        (extcon_hisi_pd_set_role board usb_role.USB_ROLE_NONE).2 usb_role.USB_ROLE_HOST).2
        usb_role.USB_ROLE_DEVICE).2.calls =
      [Call.hub_power_ctrl HUB_VBUS_POWER_OFF,
       Call.usb_typec_power_ctrl
        (extcon_hisi_pd_set_role board usb_role.USB_ROLE_NONE).2.drv.typec_vbus_enable_val,
       Call.usb_switch_ctrl USB_SWITCH_TO_TYPEC,
       Call.extcon_set_state_sync Cable.EXTCON_USB_HOST false,
       Call.extcon_set_state_sync Cable.EXTCON_USB true] :=
  set_role_device_after_host (extcon_hisi_pd_set_role board usb_role.USB_ROLE_NONE).2
    (by decide) (by decide)

/-- C17: `set_role(HOST)` never touches the hub-power line: in every context (whose present
lines are different lines) and from every starting state it makes no call of
`hub_power_ctrl`, addresses no GPIO operation, read or write, to the hub-power line, and
leaves the level of the hub-power line as it was. -/
theorem set_role_host_leaves_hub_power (s : Sys) (hd : lines_distinct s) :
    (∀ v, Call.hub_power_ctrl v ∉
      since s.calls (extcon_hisi_pd_set_role s usb_role.USB_ROLE_HOST).2.calls) ∧
    (∀ op ∈ since s.io (extcon_hisi_pd_set_role s usb_role.USB_ROLE_HOST).2.io,
      op.line ≠ s.drv.hub_vbus_gpio) ∧
    (extcon_hisi_pd_set_role s usb_role.USB_ROLE_HOST).2.level s.drv.hub_vbus_gpio =
      s.level s.drv.hub_vbus_gpio := by
  obtain ⟨d12, d13, d23⟩ := hd
  have n2 : gpio_is_valid s s.drv.typec_vbus_gpio = true →
      s.drv.typec_vbus_gpio ≠ s.drv.hub_vbus_gpio := by
    intro h2 e
    by_cases h1 : gpio_is_valid s s.drv.hub_vbus_gpio = true
    · exact d12 h1 h2 e.symm
    · rw [← e] at h1; exact h1 h2
  have n3 : gpio_is_valid s s.drv.otg_switch_gpio = true →
      s.drv.otg_switch_gpio ≠ s.drv.hub_vbus_gpio := by
    intro h3 e
    by_cases h1 : gpio_is_valid s s.drv.hub_vbus_gpio = true
    · exact d13 h1 h3 e.symm
    · rw [← e] at h1; exact h1 h3
  refine ⟨?_, ?_, ?_⟩
  · intro v
    rw [set_role_calls_host]
    simp [since]
  · intro op hop
    by_cases h2 : gpio_is_valid s s.drv.typec_vbus_gpio = true <;>
    by_cases h3 : gpio_is_valid s s.drv.otg_switch_gpio = true <;>
    simp [extcon_hisi_pd_set_role, extcon_set_state_sync,
      usb_switch_ctrl_drv, usb_typec_power_ctrl_drv,
      usb_switch_ctrl_valid, usb_typec_power_ctrl_valid,
      usb_switch_ctrl_io, usb_typec_power_ctrl_io, since, h2, h3] at hop
    · rcases hop with rfl | hop | rfl | hop
      · exact n3 h3
      · obtain ⟨_, rfl⟩ := hop
        exact n3 h3
      · exact n2 h2
      · obtain ⟨_, rfl⟩ := hop
        exact n2 h2
    · rcases hop with rfl | hop
      · exact n2 h2
      · obtain ⟨_, rfl⟩ := hop
        exact n2 h2
    · rcases hop with rfl | hop
      · exact n3 h3
      · obtain ⟨_, rfl⟩ := hop
        exact n3 h3
  · by_cases h2 : gpio_is_valid s s.drv.typec_vbus_gpio = true <;>
    by_cases h3 : gpio_is_valid s s.drv.otg_switch_gpio = true <;>
    simp [extcon_hisi_pd_set_role, extcon_set_state_sync,
      usb_switch_ctrl_drv, usb_typec_power_ctrl_drv,
      usb_switch_ctrl_valid, usb_typec_power_ctrl_valid, usb_switch_ctrl_output_err,
      usb_switch_ctrl_level, usb_typec_power_ctrl_level, h2, h3]
    · have a2 := n2 h2
      have a3 := n3 h3
      split_ifs <;> simp [Function.update_apply, a2.symm, a3.symm]
    · have a2 := n2 h2
      split_ifs <;> simp [Function.update_apply, a2.symm]
    · have a3 := n3 h3
      split_ifs <;> simp [Function.update_apply, a3.symm]

/-- C17, applied: HOST requested on the board. -/
theorem set_role_host_leaves_hub_power_witness :
    (∀ v, Call.hub_power_ctrl v ∉
      since board.calls (extcon_hisi_pd_set_role board usb_role.USB_ROLE_HOST).2.calls) ∧
    (∀ op ∈ since board.io (extcon_hisi_pd_set_role board usb_role.USB_ROLE_HOST).2.io,
      op.line ≠ board.drv.hub_vbus_gpio) ∧
    (extcon_hisi_pd_set_role board usb_role.USB_ROLE_HOST).2.level board.drv.hub_vbus_gpio =
      board.level board.drv.hub_vbus_gpio :=
  set_role_host_leaves_hub_power board (by decide)

/-- C18 (as stated, refuted): on a board with all three lines present whose line driver
fails to drive the Type-C VBUS line (line 2, at level 0, active level 1), a completed
`set_role(HOST)` returns 0 and leaves the Type-C VBUS line at 0, not at the active level;
and on a board whose switch line cannot be driven `set_role(NONE)` leaves the switch at
TYPEC (0), not at HUB. -/
theorem set_role_failed_write_misses_postcondition :
    all_present vbus_write_fails ∧
    vbus_write_fails.drv.typec_vbus_enable_val = 1 ∧
    (extcon_hisi_pd_set_role vbus_write_fails usb_role.USB_ROLE_HOST).1 = 0 ∧
    (extcon_hisi_pd_set_role vbus_write_fails usb_role.USB_ROLE_HOST).2.level
      vbus_write_fails.drv.typec_vbus_gpio = 0 ∧
    ¬ typec_vbus_active (extcon_hisi_pd_set_role vbus_write_fails usb_role.USB_ROLE_HOST).2 ∧
    all_present switch_write_fails ∧
    (extcon_hisi_pd_set_role switch_write_fails usb_role.USB_ROLE_NONE).2.level
      switch_write_fails.drv.otg_switch_gpio = USB_SWITCH_TO_TYPEC := by
  decide

/-- C18 (amended): from every starting state with all three lines present and with line
writes taking effect (configuring the Type-C VBUS line or the switch line as an output does
not fail), after `set_role(NONE)` the switch is at HUB, Type-C VBUS is at the inactive level (the logical
NOT of the active level) and hub power is ON; after `set_role(HOST)` the switch is at TYPEC
and Type-C VBUS is at the active level; after `set_role(DEVICE)` hub power is OFF, Type-C
VBUS is at the active level and the switch is at TYPEC. -/
theorem set_role_postcondition (s : Sys) (role : usb_role) (hp : all_present s)
    (hw : writes_land s) :
    match role with
    | usb_role.USB_ROLE_NONE =>
      (extcon_hisi_pd_set_role s role).2.level s.drv.otg_switch_gpio = USB_SWITCH_TO_HUB ∧
      (extcon_hisi_pd_set_role s role).2.level s.drv.typec_vbus_gpio =
        lnot s.drv.typec_vbus_enable_val ∧
      (extcon_hisi_pd_set_role s role).2.level s.drv.typec_vbus_gpio ≠
        s.drv.typec_vbus_enable_val ∧
      (extcon_hisi_pd_set_role s role).2.level s.drv.hub_vbus_gpio = HUB_VBUS_POWER_ON
    | usb_role.USB_ROLE_HOST =>
      (extcon_hisi_pd_set_role s role).2.level s.drv.otg_switch_gpio = USB_SWITCH_TO_TYPEC ∧
      (extcon_hisi_pd_set_role s role).2.level s.drv.typec_vbus_gpio =
        s.drv.typec_vbus_enable_val
    | usb_role.USB_ROLE_DEVICE =>
      (extcon_hisi_pd_set_role s role).2.level s.drv.hub_vbus_gpio = HUB_VBUS_POWER_OFF ∧
      (extcon_hisi_pd_set_role s role).2.level s.drv.typec_vbus_gpio =
        s.drv.typec_vbus_enable_val ∧
      (extcon_hisi_pd_set_role s role).2.level s.drv.otg_switch_gpio = USB_SWITCH_TO_TYPEC := by
  have hl := set_role_line_levels s role hp hw
  simp only [line_levels, set_role_drv] at hl
  cases role
  · simp only [Prod.mk.injEq] at hl
    exact ⟨hl.2.2, hl.2.1, by rw [hl.2.1]; exact lnot_ne_self _, hl.1⟩
  · simp only [Prod.mk.injEq] at hl
    exact ⟨hl.2.2, hl.2.1⟩
  · simp only [Prod.mk.injEq] at hl
    exact ⟨hl.1, hl.2.1, hl.2.2⟩

/-- C18 (amended), applied: DEVICE requested on the board. -/
theorem set_role_postcondition_witness :
    (extcon_hisi_pd_set_role board usb_role.USB_ROLE_DEVICE).2.level board.drv.hub_vbus_gpio =
      HUB_VBUS_POWER_OFF ∧
    (extcon_hisi_pd_set_role board usb_role.USB_ROLE_DEVICE).2.level
      board.drv.typec_vbus_gpio = board.drv.typec_vbus_enable_val ∧
    (extcon_hisi_pd_set_role board usb_role.USB_ROLE_DEVICE).2.level
      board.drv.otg_switch_gpio = USB_SWITCH_TO_TYPEC :=
  set_role_postcondition board usb_role.USB_ROLE_DEVICE (by decide) (by decide)

/-- C19: after every completed `set_role(R)`, in every context and from every prior cable
state, exactly one of the cable kinds USB and USB_HOST is true: USB is true iff R is
DEVICE and USB_HOST is true iff R is NONE or HOST; and the announcements of the transition
are two, the kind being cleared announced false first, then the other announced true. -/
theorem set_role_cable_state (s : Sys) (role : usb_role) :
    ((extcon_hisi_pd_set_role s role).2.cable Cable.EXTCON_USB = true ↔
      role = usb_role.USB_ROLE_DEVICE) ∧
    ((extcon_hisi_pd_set_role s role).2.cable Cable.EXTCON_USB_HOST = true ↔
      (role = usb_role.USB_ROLE_NONE ∨ role = usb_role.USB_ROLE_HOST)) ∧
    (extcon_hisi_pd_set_role s role).2.cable Cable.EXTCON_USB ≠
      (extcon_hisi_pd_set_role s role).2.cable Cable.EXTCON_USB_HOST ∧
    announcements (since s.calls (extcon_hisi_pd_set_role s role).2.calls) =
      (if role = usb_role.USB_ROLE_DEVICE
       then [(Cable.EXTCON_USB_HOST, false), (Cable.EXTCON_USB, true)]
       else [(Cable.EXTCON_USB, false), (Cable.EXTCON_USB_HOST, true)]) := by
  cases role
  · refine ⟨?_, ?_, ?_, ?_⟩
    · simp [extcon_hisi_pd_set_role, extcon_set_state_sync, Function.update_apply]
    · simp [extcon_hisi_pd_set_role, extcon_set_state_sync, Function.update_apply]
    · simp [extcon_hisi_pd_set_role, extcon_set_state_sync, Function.update_apply]
    · rw [set_role_calls_none]; simp [since, announcements]
  · refine ⟨?_, ?_, ?_, ?_⟩
    · simp [extcon_hisi_pd_set_role, extcon_set_state_sync, Function.update_apply]
    · simp [extcon_hisi_pd_set_role, extcon_set_state_sync, Function.update_apply]
    · simp [extcon_hisi_pd_set_role, extcon_set_state_sync, Function.update_apply]
    · rw [set_role_calls_host]; simp [since, announcements]
  · refine ⟨?_, ?_, ?_, ?_⟩
    · simp [extcon_hisi_pd_set_role, extcon_set_state_sync, Function.update_apply]
    · simp [extcon_hisi_pd_set_role, extcon_set_state_sync, Function.update_apply]
    · simp [extcon_hisi_pd_set_role, extcon_set_state_sync, Function.update_apply]
    · rw [set_role_calls_device]; simp [since, announcements]

/-- C20: for every 32-bit configured polarity c, a probe that returns 0 (on a platform that
has GPIO lines) stores the active level 1 if c is non-zero and 0 if c is zero. Consequently,
in every later state `t` holding that stored level, the level `set_role` passes to
`usb_typec_power_ctrl` is 0 or 1: for NONE it is the boolean complement of the stored level,
for HOST and DEVICE the stored level itself. `set_role` and the three actuators leave the
stored active level as it is. -/
theorem polarity_normalised (s : Sys) (root : device_node) (t : Sys) (role : usb_role)
    (v : Int) (hn : 0 < s.ARCH_NR_GPIOS) (hc : root.typc_vbus_enable_val < 2 ^ 32)
    (h0 : (hisi_hikey_usb_probe s root).1 = 0)
    (ht : t.drv.typec_vbus_enable_val =
      (hisi_hikey_usb_probe s root).2.drv.typec_vbus_enable_val) :
    (hisi_hikey_usb_probe s root).2.drv.typec_vbus_enable_val =
      (if root.typc_vbus_enable_val = 0 then 0 else 1) ∧
    (t.drv.typec_vbus_enable_val = 0 ∨ t.drv.typec_vbus_enable_val = 1) ∧
    typec_levels (since t.calls
      (extcon_hisi_pd_set_role t usb_role.USB_ROLE_NONE).2.calls) =
      [1 - t.drv.typec_vbus_enable_val] ∧
    typec_levels (since t.calls
      (extcon_hisi_pd_set_role t usb_role.USB_ROLE_HOST).2.calls) =
      [t.drv.typec_vbus_enable_val] ∧
    typec_levels (since t.calls
      (extcon_hisi_pd_set_role t usb_role.USB_ROLE_DEVICE).2.calls) =
      [t.drv.typec_vbus_enable_val] ∧
    (extcon_hisi_pd_set_role t role).2.drv.typec_vbus_enable_val =
      t.drv.typec_vbus_enable_val ∧
    (hub_power_ctrl t v).drv.typec_vbus_enable_val = t.drv.typec_vbus_enable_val ∧
    (usb_switch_ctrl t v).drv.typec_vbus_enable_val = t.drv.typec_vbus_enable_val ∧
    (usb_typec_power_ctrl t v).drv.typec_vbus_enable_val = t.drv.typec_vbus_enable_val := by
  have hm : root.typc_vbus_enable_val % 2 ^ 32 = root.typc_vbus_enable_val :=
    Nat.mod_eq_of_lt hc
  have e1 : (hisi_hikey_usb_probe s root).2.drv.typec_vbus_enable_val =
      (if root.typc_vbus_enable_val = 0 then 0 else 1) := by
    rw [(probe_zero s root hn h0).1, normalised, hm]
  have e01 : t.drv.typec_vbus_enable_val = 0 ∨ t.drv.typec_vbus_enable_val = 1 := by
    rw [ht, e1]
    split_ifs
    · exact Or.inl rfl
    · exact Or.inr rfl
  have ec : lnot t.drv.typec_vbus_enable_val = 1 - t.drv.typec_vbus_enable_val := by
    rcases e01 with e | e <;> rw [e] <;> decide
  refine ⟨e1, e01, ?_, ?_, ?_, ?_, ?_, ?_, ?_⟩
  · rw [set_role_calls_none, ec]; simp [since, typec_levels]
  · rw [set_role_calls_host]; simp [since, typec_levels]
  · rw [set_role_calls_device]; simp [since, typec_levels]
  · rw [set_role_drv]
  · rw [hub_power_ctrl_drv]
  · rw [usb_switch_ctrl_drv]
  · rw [usb_typec_power_ctrl_drv]

/-- C20, applied: the probe of the unattached board with configured polarity 1, and the
board as the later state. -/
theorem polarity_normalised_witness :
    (hisi_hikey_usb_probe unprobed hikey960_node).2.drv.typec_vbus_enable_val =
      (if hikey960_node.typc_vbus_enable_val = 0 then 0 else 1) ∧
    (board.drv.typec_vbus_enable_val = 0 ∨ board.drv.typec_vbus_enable_val = 1) ∧
    typec_levels (since board.calls
      (extcon_hisi_pd_set_role board usb_role.USB_ROLE_NONE).2.calls) =
      [1 - board.drv.typec_vbus_enable_val] ∧
    typec_levels (since board.calls
      (extcon_hisi_pd_set_role board usb_role.USB_ROLE_HOST).2.calls) =
      [board.drv.typec_vbus_enable_val] ∧
    typec_levels (since board.calls
      (extcon_hisi_pd_set_role board usb_role.USB_ROLE_DEVICE).2.calls) =
      [board.drv.typec_vbus_enable_val] ∧
    (extcon_hisi_pd_set_role board usb_role.USB_ROLE_NONE).2.drv.typec_vbus_enable_val =
      board.drv.typec_vbus_enable_val ∧
    (hub_power_ctrl board 0).drv.typec_vbus_enable_val = board.drv.typec_vbus_enable_val ∧
    (usb_switch_ctrl board 0).drv.typec_vbus_enable_val = board.drv.typec_vbus_enable_val ∧
    (usb_typec_power_ctrl board 0).drv.typec_vbus_enable_val =
      board.drv.typec_vbus_enable_val :=
  polarity_normalised unprobed hikey960_node board usb_role.USB_ROLE_NONE 0 (by decide)
    (by decide) (by decide) (by decide)

end Hikey
